import Mathlib

/-!
Verification of the tigera/operator repository's LogCollector and APIServer
controllers against their natural-language specification.

The Go code is shallowly embedded: each Kubernetes client read, readiness
flag and external call outcome appears as a field of an explicit "world"
record, and a reconcile invocation is a pure function from a world to an
output record that logs the exit taken, the returned error, the requeue
flag, the status-manager calls (SetDegraded / ClearDegraded / OnCRFound /
OnCRNotFound) and the ordered list of components applied through
CreateOrUpdateOrDelete.  Fields of Kubernetes objects that the embedded
code never reads are collapsed into opaque `rest` strings.
-/

namespace Operator

/-- Outcome of a Kubernetes client `Get`: the object is absent
(`errors.IsNotFound`), the read failed with another error, or the object was
found. -/
inductive GetRes (α : Type) where
  | notFound
  | err (e : String)
  | ok (v : α)
deriving DecidableEq

/-- Decidable equality for `Except` results. -/
instance {α β : Type} [DecidableEq α] [DecidableEq β] : DecidableEq (Except α β) :=
  fun a b =>
    match a, b with
    | .error x, .error y =>
      if h : x = y then isTrue (by rw [h]) else isFalse (by simp [h])
    | .ok x, .ok y =>
      if h : x = y then isTrue (by rw [h]) else isFalse (by simp [h])
    | .error _, .ok _ => isFalse (by simp)
    | .ok _, .error _ => isFalse (by simp)

/-- `operatorv1.CollectProcessPathOption` values. -/
inductive CollectProcessPath where
  | enable
  | disable
deriving DecidableEq

/-- `operatorv1.SyslogLogType` values. -/
inductive SyslogLogType where
  | audit
  | dns
  | flows
  | idsEvents
deriving DecidableEq

/-- `operatorv1.SyslogStoreSpec`: the fields read by the LogCollector
controller.  `logTypes = none` models a nil Go slice and `some []` an empty
one; `encryption` is the Go string type (empty, "None" or "TLS");
`endpointValid` abstracts whether `url.ParseEndpoint` accepts the Endpoint;
`rest` stands for the remaining fields of the struct. -/
structure SyslogStoreSpec where
  endpointValid : Bool
  logTypes : Option (List SyslogLogType)
  encryption : String
  rest : String
deriving DecidableEq

/-- `operatorv1.AdditionalLogStoreSpec`: presence of the S3 and Splunk
sub-specs (their contents are read from secrets, not from the CR) and the
Syslog sub-spec. -/
structure AdditionalStores where
  s3 : Bool
  splunk : Bool
  syslog : Option SyslogStoreSpec
  rest : String
deriving DecidableEq

/-- `operatorv1.EksCloudwatchLogsSpec` fields forwarded to
`getEksCloudwatchLogConfig`. -/
structure EksCloudwatchLogsSpec where
  fetchInterval : Int
  region : String
  groupName : String
  streamPfx : String
deriving DecidableEq

/-- `operatorv1.LogCollectorSpec`: the fields read by the controller, with
`rest` standing for any others. -/
structure LogCollectorSpec where
  collectProcessPath : Option CollectProcessPath
  additionalStores : Option AdditionalStores
  additionalSourcesEks : Option EksCloudwatchLogsSpec
  multiTenantManagementClusterNamespace : String
  rest : String
deriving DecidableEq

/-- `operatorv1.LogCollectorStatus`: the controller writes `state` and the
conditions; other data is opaque. -/
structure LogCollectorStatus where
  state : String
  rest : String
deriving DecidableEq

/-- The `operatorv1.LogCollector` custom resource. -/
structure LogCollector where
  spec : LogCollectorSpec
  status : LogCollectorStatus
  metaRest : String
deriving DecidableEq

/-- `fillDefaults` from `pkg/controller/logcollector/logcollector_controller.go`:
sets the default value of CollectProcessPath and of the syslog LogTypes and
Encryption when unset, returning the updated instance together with the
names of the fields it modified. -/
def fillDefaults (inst : LogCollector) : LogCollector × List String :=
  let modifiedFields : List String := []
  let (inst, modifiedFields) :=
    match inst.spec.collectProcessPath with
    | none =>
        ({ inst with spec := { inst.spec with collectProcessPath := some CollectProcessPath.enable } },
         modifiedFields ++ ["CollectProcessPath"])
    | some _ => (inst, modifiedFields)
  match inst.spec.additionalStores with
  | none => (inst, modifiedFields)
  | some stores =>
    match stores.syslog with
    | none => (inst, modifiedFields)
    | some syslog =>
      let (syslog, modifiedFields) :=
        if (syslog.logTypes.getD []).length = 0 then
          ({ syslog with logTypes := some [SyslogLogType.audit, SyslogLogType.dns, SyslogLogType.flows] },
           modifiedFields ++ ["AdditionalStores.Syslog.LogTypes"])
        else (syslog, modifiedFields)
      let (syslog, modifiedFields) :=
        if syslog.encryption.length = 0 then
          ({ syslog with encryption := "None" }, modifiedFields ++ ["AdditionalStores.Syslog.Encryption"])
        else (syslog, modifiedFields)
      ({ inst with spec := { inst.spec with additionalStores := some { stores with syslog := some syslog } } },
       modifiedFields)

/-- The data of the `eks-log-forwarder` secret read by
`getEksCloudwatchLogConfig`: the `aws-id` and `aws-key` entries (an absent
entry and an empty one are both length zero, as in the Go code). -/
structure EksSecret where
  awsId : String
  awsKey : String
deriving DecidableEq

/-- `render.EksCloudwatchLogConfig` as populated by
`getEksCloudwatchLogConfig`. -/
structure EksCloudwatchLogConfig where
  awsId : String
  awsKey : String
  awsRegion : String
  groupName : String
  streamPfx : String
  fetchInterval : Int
deriving DecidableEq

/-- `getEksCloudwatchLogConfig` from the LogCollector controller.  The
client read of the `eks-log-forwarder` secret is the `secret` argument;
`.ok none` models the Go `(nil, nil)` return. -/
def getEksCloudwatchLogConfig (secret : GetRes EksSecret) (interval : Int)
    (region group pfx : String) : Except String (Option EksCloudwatchLogConfig) :=
  if region = "" then .error "missing AWS region info"
  else if group = "" then .error "missing Cloudwatch log group name"
  else
    let pfx := if pfx = "" then "kube-apiserver-audit-" else pfx
    let interval := if interval = 0 then 60 else interval
    match secret with
    | .notFound => .ok none
    | .err _ => .error "failed to read Secret eks-log-forwarder"
    | .ok s =>
      if s.awsId.length = 0 || s.awsKey.length = 0 then
        .error "incomplete Cloudwatch credentials"
      else
        .ok (some { awsId := s.awsId, awsKey := s.awsKey, awsRegion := region,
                    groupName := group, streamPfx := pfx, fetchInterval := interval })

/-- Data of the S3 credential secret (`render.S3FluentdSecretName`). -/
structure S3Secret where
  keyId : String
  keySecret : String
deriving DecidableEq

/-- `render.S3Credential`. -/
structure S3Credential where
  keyId : String
  keySecret : String
deriving DecidableEq

/-- `getS3Credential`: read the S3 credential secret; absent is `(nil, nil)`,
and a present secret must carry non-empty id and secret fields. -/
def getS3Credential (secret : GetRes S3Secret) : Except String (Option S3Credential) :=
  match secret with
  | .notFound => .ok none
  | .err _ => .error "failed to read S3 credential secret"
  | .ok s =>
    if s.keyId.length = 0 then .error "expected secret to have a key id field"
    else if s.keySecret.length = 0 then .error "expected secret to have a key secret field"
    else .ok (some { keyId := s.keyId, keySecret := s.keySecret })

/-- Data of the Splunk token secret. -/
structure SplunkSecret where
  token : String
deriving DecidableEq

/-- `render.SplunkCredential`. -/
structure SplunkCredential where
  token : String
deriving DecidableEq

/-- `getSplunkCredential`: read the Splunk token secret; absent is
`(nil, nil)`, and a present secret must carry a non-empty token. -/
def getSplunkCredential (secret : GetRes SplunkSecret) : Except String (Option SplunkCredential) :=
  match secret with
  | .notFound => .ok none
  | .err _ => .error "failed to read Splunk token secret"
  | .ok s =>
    if s.token.length = 0 then .error "expected secret to have a token field"
    else .ok (some { token := s.token })

/-- Data of the fluentd filters ConfigMap. -/
structure FiltersCM where
  flow : String
  dns : String
deriving DecidableEq

/-- `getFluentdFilters`: read the fluentd filters ConfigMap; absent is
`(nil, nil)`. -/
def getFluentdFilters (cm : GetRes FiltersCM) : Except String (Option FiltersCM) :=
  match cm with
  | .notFound => .ok none
  | .err _ => .error "failed to read fluentd filters ConfigMap"
  | .ok c => .ok (some c)

/-- Data of the syslog CA ConfigMap: the `tls.crt` entry (empty when the
field is absent). -/
structure SyslogCM where
  tlsCert : String
deriving DecidableEq

/-- `getSysLogCertificate`: read the syslog CA ConfigMap; an absent
ConfigMap or an empty `tls.crt` field yields `(nil, nil)`. -/
def getSysLogCertificate (cm : GetRes SyslogCM) : Except String (Option String) :=
  match cm with
  | .notFound => .ok none
  | .err _ => .error "failed to read syslog CA ConfigMap"
  | .ok c =>
    if c.tlsCert.length = 0 then .ok none
    else .ok (some c.tlsCert)

/-- `GetLogCollector`: fetch the single `tigera-secure` LogCollector and
reject a Syslog additional store whose Endpoint does not parse. -/
def GetLogCollector (clientGet : GetRes LogCollector) : GetRes LogCollector :=
  match clientGet with
  | .notFound => .notFound
  | .err e => .err e
  | .ok inst =>
    match inst.spec.additionalStores with
    | some stores =>
      match stores.syslog with
      | some syslog =>
        if syslog.endpointValid then .ok inst
        else .err "syslog config has invalid Endpoint"
      | none => .ok inst
    | none => .ok inst

/-- The license key: whether the `export-logs` feature is active. -/
structure License where
  hasExportLogs : Bool
deriving DecidableEq

/-- The Installation spec fields read by the two controllers. -/
structure Installation where
  variant : String
  kubernetesProviderIsEKS : Bool
  certificateManagement : Bool
  controlPlaneReplicas : Int
  rest : String
deriving DecidableEq

/-- `operatorv1.TigeraSecureEnterprise`. -/
def TigeraSecureEnterprise : String := "TigeraSecureEnterprise"

/-- `operatorv1.Calico`. -/
def Calico : String := "Calico"

/-- The NonClusterHost resource: whether its Endpoint parses. -/
structure NonClusterHost where
  endpointValid : Bool
deriving DecidableEq

/-- `status.StatusManager.SetDegraded` call: reason enumeration. -/
inductive DegradedReason where
  | resourceReadError
  | resourceNotReady
  | resourcePatchError
  | resourceNotFound
  | resourceCreateError
  | resourceValidationError
  | resourceUpdateError
  | resourceRenderingError
  | certificateError
deriving DecidableEq

/-- A recorded `SetDegraded` call (reason and message). -/
structure Degraded where
  reason : DegradedReason
  message : String
deriving DecidableEq

/-- The components the LogCollector reconcile loop applies, in the order
they are handed to `CreateOrUpdateOrDelete`. -/
inductive CompKind where
  | setup
  | fluentdLinux
  | certMgmt
  | fluentdWindows
deriving DecidableEq

/-- The return sites of `ReconcileLogCollector.Reconcile`, in source
order. -/
inductive LCExit where
  | crNotFound
  | errGetLogCollector
  | errTigeraStatusRead
  | errStatusCondUpdate
  | errDefaultsPatch
  | apiServerNotReady
  | tierWatchNotReady
  | tierNotFound
  | errTierQuery
  | licenseNotReady
  | licenseNotFound
  | errLicenseQuery
  | installationNotFound
  | errInstallationQuery
  | errPullSecrets
  | errMCCQuery
  | errMCQuery
  | errCertManagerCreate
  | errFluentdKeyPair
  | errPrometheusCert
  | prometheusCertNotReady
  | mtNamespaceNotAllowed
  | mtNamespaceUnset
  | errTenantQuery
  | errLinseedCert
  | linseedCertNotReady
  | errTrustedBundle
  | exportLogsNotLicensed
  | errS3Credential
  | s3SecretNotFound
  | errSplunkCredential
  | splunkSecretNotFound
  | errSyslogCert
  | idsEventsNotSupported
  | errFilters
  | esConfigNotAvailable
  | errESConfig
  | errEksConfig
  | errEksKeyPair
  | errPacketCapture
  | errNonClusterHost
  | errNonClusterHostEndpoint
  | errImageSet
  | errApplyComponent (c : CompKind)
  | errHasWindowsNodes
  | errImageSetWindows
  | errApplyWindows
  | notAvailable
  | errFinalStatusUpdate
  | success
deriving DecidableEq

/-- The observable outcome of one `ReconcileLogCollector.Reconcile`
invocation: which return statement was taken, the returned error, whether
the result requeues after the standard retry interval, the status-manager
calls made, the ordered list of components applied successfully through
`CreateOrUpdateOrDelete`, whether a Windows fluentd component was rendered,
and whether `Status.State` was set to Ready. -/
structure LCOut where
  exit : LCExit
  error : Option String
  requeue : Bool
  onCRFound : Bool
  onCRNotFound : Bool
  degraded : Option Degraded
  cleared : Bool
  applies : List CompKind
  windowsRendered : Bool
  stateSetReady : Bool
deriving DecidableEq

/-- An exit before the apply phase that calls `SetDegraded` and returns. -/
def degradedExit (e : LCExit) (d : Degraded) (err : Option String) (rq : Bool) : LCOut :=
  { exit := e, error := err, requeue := rq, onCRFound := true, onCRNotFound := false,
    degraded := some d, cleared := false, applies := [], windowsRendered := false,
    stateSetReady := false }

/-- An exit before the apply phase that returns without touching the status
manager. -/
def plainExit (e : LCExit) (err : Option String) (rq : Bool) : LCOut :=
  { exit := e, error := err, requeue := rq, onCRFound := true, onCRNotFound := false,
    degraded := none, cleared := false, applies := [], windowsRendered := false,
    stateSetReady := false }

/-- The cluster state and call outcomes one `ReconcileLogCollector.Reconcile`
invocation can observe, one field per client read, readiness flag or
external call in source order. -/
structure LCWorld where
  clientGetLogCollector : GetRes LogCollector
  requestIsStatusRequest : Bool
  tigeraStatusGet : Except String Unit
  statusConditionsUpdateOk : Bool
  patchOk : Bool
  apiServerReady : Bool
  tierWatchReady : Bool
  tierGet : GetRes Unit
  licenseAPIReady : Bool
  licenseGet : GetRes License
  installationGet : GetRes Installation
  pullSecretsErr : Option String
  mccGet : GetRes Unit
  mcGet : Except String Bool
  certManagerCreate : Except String Unit
  fluentdKeyPair : Except String Unit
  prometheusCert : Except String Bool
  multiTenant : Bool
  tenantGet : Except String Unit
  linseedCertVoltron : Except String Bool
  linseedCertTenant : Except String Bool
  linseedCertStandard : Except String Bool
  trustedBundleCreate : Except String Unit
  s3Secret : GetRes S3Secret
  splunkSecret : GetRes SplunkSecret
  syslogCertCM : GetRes SyslogCM
  filtersCM : GetRes FiltersCM
  esClusterConfigGet : GetRes Unit
  eksSecret : GetRes EksSecret
  eksKeyPair : Except String Unit
  packetCaptureGet : GetRes Unit
  nonClusterHostGet : Except String (Option NonClusterHost)
  imageSetLinux : Except String Unit
  applySetup : Except String Unit
  applyFluentdLinux : Except String Unit
  applyCertMgmt : Except String Unit
  hasWindowsNodes : Except String Bool
  imageSetWindows : Except String Unit
  applyFluentdWindows : Except String Unit
  statusAvailable : Bool
  finalStatusUpdateOk : Bool

/-- Lines 273-284: for a request named `log-collector` with empty
namespace, read the TigeraStatus and update the LogCollector status
conditions. -/
def lcStatusConditions (w : LCWorld) : Except LCOut Unit :=
  if w.requestIsStatusRequest then
    match w.tigeraStatusGet with
    | .error e => .error (plainExit .errTigeraStatusRead (some e) false)
    | .ok _ =>
      if !w.statusConditionsUpdateOk then
        .error (plainExit .errStatusCondUpdate (some "status conditions update failed") false)
      else .ok ()
  else .ok ()

/-- Lines 250-296: fetch the LogCollector, update status conditions for a
TigeraStatus-triggered request, and patch defaults onto the instance. -/
def lcPhaseFetch (w : LCWorld) : Except LCOut LogCollector :=
  match GetLogCollector w.clientGetLogCollector with
  | .notFound =>
      .error { exit := .crNotFound, error := none, requeue := false, onCRFound := false,
               onCRNotFound := true, degraded := none, cleared := false, applies := [],
               windowsRendered := false, stateSetReady := false }
  | .err e =>
      .error { exit := .errGetLogCollector, error := some e, requeue := false,
               onCRFound := false, onCRNotFound := false,
               degraded := some ⟨.resourceReadError, "Error querying for LogCollector"⟩,
               cleared := false, applies := [], windowsRendered := false, stateSetReady := false }
  | .ok inst0 =>
    match lcStatusConditions w with
    | .error o => .error o
    | .ok _ =>
      match fillDefaults inst0 with
      | (inst, modifiedFields) =>
        if modifiedFields.length > 0 && !w.patchOk then
          .error (degradedExit .errDefaultsPatch
            ⟨.resourcePatchError, "Failed to set defaults for LogCollector fields"⟩
            (some "patch failed") false)
        else .ok inst

/-- State carried from the gate phase into the store and apply phases. -/
structure LCState where
  inst : LogCollector
  installation : Installation
  managedCluster : Bool

/-- Lines 404-429: choose the Linseed certificate to read (Voltron for
managed clusters, the tenant namespace for multi-tenant management
clusters, the operator namespace otherwise), with the multi-tenant
validation exits. -/
def lcLinseedSelect (w : LCWorld) (inst : LogCollector)
    (managedCluster multiTenantManagement : Bool) : Except LCOut (Except String Bool) :=
  if managedCluster then .ok w.linseedCertVoltron
  else if multiTenantManagement then
    if inst.spec.multiTenantManagementClusterNamespace = "" then
      .error (degradedExit .mtNamespaceUnset
        ⟨.resourceValidationError, "multiTenantManagementClusterNamespace is not set"⟩
        none false)
    else
      match w.tenantGet with
      | .error e =>
          .error (degradedExit .errTenantQuery
            ⟨.resourceNotReady, "Failed to retrieve tenant"⟩ (some e) false)
      | .ok _ => .ok w.linseedCertTenant
  else .ok w.linseedCertStandard

/-- Lines 298-454: readiness gates, license, Installation, pull secrets,
management-cluster resources, certificates, the Linseed certificate and
trusted bundle, and the export-logs license check. -/
def lcPhaseGates (w : LCWorld) (inst : LogCollector) : Except LCOut LCState :=
  if !w.apiServerReady then
    .error (degradedExit .apiServerNotReady
      ⟨.resourceNotReady, "Waiting for Tigera API server to be ready"⟩ none false)
  else if !w.tierWatchReady then
    .error (degradedExit .tierWatchNotReady
      ⟨.resourceNotReady, "Waiting for Tier watch to be established"⟩ none true)
  else
    match w.tierGet with
    | .notFound =>
        .error (degradedExit .tierNotFound
          ⟨.resourceNotReady, "Waiting for allow-tigera tier to be created"⟩ none true)
    | .err e =>
        .error (degradedExit .errTierQuery
          ⟨.resourceNotReady, "Error querying allow-tigera tier"⟩ (some e) false)
    | .ok _ =>
    if !w.licenseAPIReady then
      .error (degradedExit .licenseNotReady
        ⟨.resourceNotReady, "Waiting for LicenseKeyAPI to be ready"⟩ none true)
    else
      match w.licenseGet with
      | .notFound =>
          .error (degradedExit .licenseNotFound
            ⟨.resourceNotFound, "License not found"⟩ none true)
      | .err _ =>
          .error (degradedExit .errLicenseQuery
            ⟨.resourceReadError, "Error querying license"⟩ none true)
      | .ok license =>
      match w.installationGet with
      | .notFound =>
          .error (degradedExit .installationNotFound
            ⟨.resourceNotFound, "Installation not found"⟩ (some "NotFound") false)
      | .err e =>
          .error (degradedExit .errInstallationQuery
            ⟨.resourceReadError, "Error querying installation"⟩ (some e) false)
      | .ok installation =>
      match w.pullSecretsErr with
      | some e =>
          .error (degradedExit .errPullSecrets
            ⟨.resourceReadError, "Error retrieving pull secrets"⟩ (some e) false)
      | none =>
      if let .err e := w.mccGet then
        .error (degradedExit .errMCCQuery
          ⟨.resourceNotFound, "An error occurred while looking for a ManagementClusterConnection"⟩
          (some e) false)
      else
        let managedCluster : Bool := match w.mccGet with | .ok _ => true | _ => false
        match w.mcGet with
        | .error e =>
            .error (degradedExit .errMCQuery
              ⟨.resourceReadError, "Error reading ManagementCluster"⟩ (some e) false)
        | .ok mcPresent =>
        match w.certManagerCreate with
        | .error e =>
            .error (degradedExit .errCertManagerCreate
              ⟨.resourceCreateError, "Unable to create the Tigera CA"⟩ (some e) false)
        | .ok _ =>
        match w.fluentdKeyPair with
        | .error e =>
            .error (degradedExit .errFluentdKeyPair
              ⟨.resourceCreateError, "Error creating TLS certificate"⟩ (some e) false)
        | .ok _ =>
        match w.prometheusCert with
        | .error e =>
            .error (degradedExit .errPrometheusCert
              ⟨.resourceReadError, "Failed to get certificate"⟩ (some e) false)
        | .ok false =>
            .error (degradedExit .prometheusCertNotReady
              ⟨.resourceNotReady, "Prometheus secrets are not available yet"⟩ none true)
        | .ok true =>
        let multiTenantManagement : Bool := w.multiTenant && mcPresent
        if inst.spec.multiTenantManagementClusterNamespace ≠ "" && !multiTenantManagement then
          .error (degradedExit .mtNamespaceNotAllowed
            ⟨.resourceValidationError,
             "multiTenantManagementClusterNamespace can only be set on multi-tenant management clusters"⟩
            none false)
        else
          match lcLinseedSelect w inst managedCluster multiTenantManagement with
          | .error o => .error o
          | .ok linseedRes =>
          match linseedRes with
          | .error e =>
              .error (degradedExit .errLinseedCert
                ⟨.resourceValidationError, "Failed to retrieve / validate linseed certificate"⟩
                (some e) false)
          | .ok false =>
              .error (degradedExit .linseedCertNotReady
                ⟨.resourceNotReady, "Linseed certificate is not yet available"⟩ none false)
          | .ok true =>
          match w.trustedBundleCreate with
          | .error e =>
              .error (degradedExit .errTrustedBundle
                ⟨.resourceCreateError, "Unable to create tigera-ca-bundle configmap"⟩ (some e) false)
          | .ok _ =>
          if !license.hasExportLogs && inst.spec.additionalStores.isSome then
            .error (degradedExit .exportLogsNotLicensed
              ⟨.resourceValidationError,
               "Feature is not active - License does not support feature: export-logs"⟩
              none false)
          else
            .ok { inst := inst, installation := installation, managedCluster := managedCluster }

/-- Lines 456-469: validate the S3 credential secret when an S3 additional
store is configured. -/
def lcS3Step (w : LCWorld) (inst : LogCollector) : Except LCOut Unit :=
  match inst.spec.additionalStores with
  | some stores =>
    if stores.s3 then
      match getS3Credential w.s3Secret with
      | .error e =>
          .error (degradedExit .errS3Credential
            ⟨.resourceValidationError, "Error with S3 credential secret"⟩ (some e) false)
      | .ok none =>
          .error (degradedExit .s3SecretNotFound
            ⟨.resourceNotFound, "S3 credential secret does not exist"⟩ none false)
      | .ok (some _) => .ok ()
    else .ok ()
  | none => .ok ()

/-- Lines 471-484: validate the Splunk credential secret when a Splunk
additional store is configured. -/
def lcSplunkStep (w : LCWorld) (inst : LogCollector) : Except LCOut Unit :=
  match inst.spec.additionalStores with
  | some stores =>
    if stores.splunk then
      match getSplunkCredential w.splunkSecret with
      | .error e =>
          .error (degradedExit .errSplunkCredential
            ⟨.resourceValidationError, "Error with Splunk credential secret"⟩ (some e) false)
      | .ok none =>
          .error (degradedExit .splunkSecretNotFound
            ⟨.resourceNotFound, "Splunk credential secret does not exist"⟩ none false)
      | .ok (some _) => .ok ()
    else .ok ()
  | none => .ok ()

/-- Lines 486-499: load the syslog CA certificate when the Syslog store
uses TLS encryption. -/
def lcSyslogCertStep (w : LCWorld) (inst : LogCollector) : Except LCOut Unit :=
  match inst.spec.additionalStores with
  | some stores =>
    match stores.syslog with
    | some syslog =>
      if syslog.encryption = "TLS" then
        match getSysLogCertificate w.syslogCertCM with
        | .error e =>
            .error (degradedExit .errSyslogCert
              ⟨.resourceReadError, "Error loading Syslog certificate"⟩ (some e) false)
        | .ok _ => .ok ()
      else .ok ()
    | none => .ok ()
  | none => .ok ()

/-- Lines 501-521: reject the IDSEvents syslog log type on managed
clusters. -/
def lcIdsStep (inst : LogCollector) (managedCluster : Bool) : Except LCOut Unit :=
  match inst.spec.additionalStores with
  | some stores =>
    match stores.syslog with
    | some syslog =>
      match syslog.logTypes with
      | some logTypes =>
        if managedCluster && logTypes.contains SyslogLogType.idsEvents then
          .error (degradedExit .idsEventsNotSupported
            ⟨.resourceValidationError,
             "IDSEvents option is not supported for Syslog config in a managed cluster"⟩
            none false)
        else .ok ()
      | none => .ok ()
    | none => .ok ()
  | none => .ok ()

/-- Lines 529-563: on EKS with an EksCloudwatchLog additional source, read
the Elasticsearch cluster configuration, the CloudWatch configuration and
the eks-log-forwarder key pair. -/
def lcEksStep (w : LCWorld) (inst : LogCollector) (installation : Installation) :
    Except LCOut Unit :=
  if installation.kubernetesProviderIsEKS then
    match inst.spec.additionalSourcesEks with
    | some eks =>
      match w.esClusterConfigGet with
      | .notFound =>
          .error (degradedExit .esConfigNotAvailable
            ⟨.resourceNotReady, "Elasticsearch cluster configuration is not available"⟩
            none false)
      | .err e =>
          .error (degradedExit .errESConfig
            ⟨.resourceReadError, "Failed to get the elasticsearch cluster configuration"⟩
            (some e) false)
      | .ok _ =>
      match getEksCloudwatchLogConfig w.eksSecret eks.fetchInterval eks.region
          eks.groupName eks.streamPfx with
      | .error e =>
          .error (degradedExit .errEksConfig
            ⟨.resourceReadError, "Error retrieving EKS Cloudwatch Logs configuration"⟩
            (some e) false)
      | .ok _ =>
      match w.eksKeyPair with
      | .error e =>
          .error (degradedExit .errEksKeyPair
            ⟨.resourceCreateError, "Error creating eks log forwarder TLS certificate"⟩
            (some e) false)
      | .ok _ => .ok ()
    | none => .ok ()
  else .ok ()

/-- Lines 456-582: the S3, Splunk and syslog additional stores, the syslog
IDSEvents validation, the fluentd filters, the EKS CloudWatch block, the
PacketCapture CR and the NonClusterHost resource. -/
def lcPhaseStores (w : LCWorld) (s : LCState) : Except LCOut Unit :=
  match lcS3Step w s.inst with
  | .error o => .error o
  | .ok _ =>
  match lcSplunkStep w s.inst with
  | .error o => .error o
  | .ok _ =>
  match lcSyslogCertStep w s.inst with
  | .error o => .error o
  | .ok _ =>
  match lcIdsStep s.inst s.managedCluster with
  | .error o => .error o
  | .ok _ =>
  match getFluentdFilters w.filtersCM with
  | .error e =>
      .error (degradedExit .errFilters
        ⟨.resourceReadError, "Error retrieving Fluentd filters"⟩ (some e) false)
  | .ok _ =>
  match lcEksStep w s.inst s.installation with
  | .error o => .error o
  | .ok _ =>
  if let .err e := w.packetCaptureGet then
    .error (degradedExit .errPacketCapture
      ⟨.resourceReadError, "Error querying PacketCapture CR"⟩ (some e) false)
  else
    match w.nonClusterHostGet with
    | .error e =>
        .error (degradedExit .errNonClusterHost
          ⟨.resourceReadError, "Failed to query NonClusterHost resource"⟩ (some e) false)
    | .ok (some nch) =>
        if !nch.endpointValid then
          .error (degradedExit .errNonClusterHostEndpoint
            ⟨.resourceReadError, "Failed to read parse endpoint from NonClusterHost resource"⟩
            (some "parse error") false)
        else .ok ()
    | .ok none => .ok ()

/-- Lines 695-709: ClearDegraded, the availability check, and the final
status update. -/
def lcFinish (w : LCWorld) (applies : List CompKind) (winRendered : Bool) : LCOut :=
  if !w.statusAvailable then
    { exit := .notAvailable, error := none, requeue := true, onCRFound := true,
      onCRNotFound := false, degraded := none, cleared := true, applies := applies,
      windowsRendered := winRendered, stateSetReady := false }
  else if !w.finalStatusUpdateOk then
    { exit := .errFinalStatusUpdate, error := some "status update failed", requeue := false,
      onCRFound := true, onCRNotFound := false, degraded := none, cleared := true,
      applies := applies, windowsRendered := winRendered, stateSetReady := true }
  else
    { exit := .success, error := none, requeue := false, onCRFound := true,
      onCRNotFound := false, degraded := none, cleared := true, applies := applies,
      windowsRendered := winRendered, stateSetReady := true }

/-- Lines 584-709: render the setup, Linux fluentd and
certificate-management components, apply them in order, then handle the
Windows fluentd component, clear the degraded bit and update the CR
status. -/
def lcPhaseApply (w : LCWorld) : LCOut :=
  match w.imageSetLinux with
  | .error e =>
      { exit := .errImageSet, error := some e, requeue := false, onCRFound := true,
        onCRNotFound := false,
        degraded := some ⟨.resourceUpdateError, "Error with images from ImageSet"⟩,
        cleared := false, applies := [], windowsRendered := false, stateSetReady := false }
  | .ok _ =>
  match w.applySetup with
  | .error e =>
      { exit := .errApplyComponent .setup, error := some e, requeue := false,
        onCRFound := true, onCRNotFound := false,
        degraded := some ⟨.resourceUpdateError, "Error creating / updating resource"⟩,
        cleared := false, applies := [], windowsRendered := false, stateSetReady := false }
  | .ok _ =>
  match w.applyFluentdLinux with
  | .error e =>
      { exit := .errApplyComponent .fluentdLinux, error := some e, requeue := false,
        onCRFound := true, onCRNotFound := false,
        degraded := some ⟨.resourceUpdateError, "Error creating / updating resource"⟩,
        cleared := false, applies := [.setup], windowsRendered := false, stateSetReady := false }
  | .ok _ =>
  match w.applyCertMgmt with
  | .error e =>
      { exit := .errApplyComponent .certMgmt, error := some e, requeue := false,
        onCRFound := true, onCRNotFound := false,
        degraded := some ⟨.resourceUpdateError, "Error creating / updating resource"⟩,
        cleared := false, applies := [.setup, .fluentdLinux], windowsRendered := false,
        stateSetReady := false }
  | .ok _ =>
  match w.hasWindowsNodes with
  | .error e =>
      { exit := .errHasWindowsNodes, error := some e, requeue := false, onCRFound := true,
        onCRNotFound := false, degraded := none, cleared := false,
        applies := [.setup, .fluentdLinux, .certMgmt], windowsRendered := false,
        stateSetReady := false }
  | .ok true =>
      match w.imageSetWindows with
      | .error e =>
          { exit := .errImageSetWindows, error := some e, requeue := false, onCRFound := true,
            onCRNotFound := false,
            degraded := some ⟨.resourceUpdateError, "Error with images from ImageSet"⟩,
            cleared := false, applies := [.setup, .fluentdLinux, .certMgmt],
            windowsRendered := true, stateSetReady := false }
      | .ok _ =>
      match w.applyFluentdWindows with
      | .error e =>
          { exit := .errApplyWindows, error := some e, requeue := false, onCRFound := true,
            onCRNotFound := false,
            degraded := some ⟨.resourceUpdateError, "Error creating / updating resource"⟩,
            cleared := false, applies := [.setup, .fluentdLinux, .certMgmt],
            windowsRendered := true, stateSetReady := false }
      | .ok _ =>
          lcFinish w [.setup, .fluentdLinux, .certMgmt, .fluentdWindows] true
  | .ok false =>
      lcFinish w [.setup, .fluentdLinux, .certMgmt] false

/-- `ReconcileLogCollector.Reconcile`: the whole reconcile invocation as a
function from the observable cluster state to the invocation outcome. -/
def reconcileLogCollector (w : LCWorld) : LCOut :=
  match lcPhaseFetch w with
  | .error o => o
  | .ok inst =>
    match lcPhaseGates w inst with
    | .error o => o
    | .ok s =>
      match lcPhaseStores w s with
      | .error o => o
      | .ok _ => lcPhaseApply w

/-- A fully-defaulted LogCollector instance with no additional stores or
sources. -/
def lcInstMinimal : LogCollector :=
  { spec := { collectProcessPath := some CollectProcessPath.enable, additionalStores := none,
              additionalSourcesEks := none, multiTenantManagementClusterNamespace := "",
              rest := "" },
    status := { state := "", rest := "" }, metaRest := "" }

/-- A world in which every read and call of the LogCollector reconcile
succeeds, with no Windows nodes and the status manager available. -/
def lcWorldGood : LCWorld :=
  { clientGetLogCollector := .ok lcInstMinimal
    requestIsStatusRequest := false
    tigeraStatusGet := .ok ()
    statusConditionsUpdateOk := true
    patchOk := true
    apiServerReady := true
    tierWatchReady := true
    tierGet := .ok ()
    licenseAPIReady := true
    licenseGet := .ok { hasExportLogs := false }
    installationGet := .ok { variant := TigeraSecureEnterprise,
                             kubernetesProviderIsEKS := false,
                             certificateManagement := false,
                             controlPlaneReplicas := 2, rest := "" }
    pullSecretsErr := none
    mccGet := .notFound
    mcGet := .ok false
    certManagerCreate := .ok ()
    fluentdKeyPair := .ok ()
    prometheusCert := .ok true
    multiTenant := false
    tenantGet := .ok ()
    linseedCertVoltron := .ok true
    linseedCertTenant := .ok true
    linseedCertStandard := .ok true
    trustedBundleCreate := .ok ()
    s3Secret := .notFound
    splunkSecret := .notFound
    syslogCertCM := .notFound
    filtersCM := .notFound
    esClusterConfigGet := .ok ()
    eksSecret := .notFound
    eksKeyPair := .ok ()
    packetCaptureGet := .notFound
    nonClusterHostGet := .ok none
    imageSetLinux := .ok ()
    applySetup := .ok ()
    applyFluentdLinux := .ok ()
    applyCertMgmt := .ok ()
    hasWindowsNodes := .ok false
    imageSetWindows := .ok ()
    applyFluentdWindows := .ok ()
    statusAvailable := true
    finalStatusUpdateOk := true }

example : (reconcileLogCollector lcWorldGood).exit = .success := by decide
example : (reconcileLogCollector lcWorldGood).applies = [.setup, .fluentdLinux, .certMgmt] := by decide

/-- A world whose reconcile is a status-conditions request and whose
TigeraStatus read fails. -/
def lcWorldStatusReadErr : LCWorld :=
  { lcWorldGood with requestIsStatusRequest := true, tigeraStatusGet := .error "boom" }

example : (reconcileLogCollector lcWorldStatusReadErr).exit = .errTigeraStatusRead := by decide
example : (reconcileLogCollector lcWorldStatusReadErr).error = some "boom" := by decide
example : (reconcileLogCollector lcWorldStatusReadErr).degraded = none := by decide

/-- A world with Windows nodes present. -/
def lcWorldWindows : LCWorld := { lcWorldGood with hasWindowsNodes := .ok true }

example : (reconcileLogCollector lcWorldWindows).applies
    = [.setup, .fluentdLinux, .certMgmt, .fluentdWindows] := by decide

/-- A world whose Windows-node query fails after the Linux components were
applied. -/
def lcWorldWindowsErr : LCWorld := { lcWorldGood with hasWindowsNodes := .error "node list failed" }

example : (reconcileLogCollector lcWorldWindowsErr).error = some "node list failed" := by decide
example : (reconcileLogCollector lcWorldWindowsErr).degraded = none := by decide

/-- A world in which everything applies but the status manager is not yet
available. -/
def lcWorldNotAvailable : LCWorld := { lcWorldGood with statusAvailable := false }

example : (reconcileLogCollector lcWorldNotAvailable).exit = .notAvailable := by decide

/-- Invariant of every pre-apply error exit: nothing cleared, applied or
set Ready. -/
def lcPreApplyInv (o : LCOut) : Prop :=
  o.cleared = false ∧ o.applies = [] ∧ o.stateSetReady = false

/-- Invariant of fetch-phase error outputs: no requeue, and an error return
either called SetDegraded or is one of the two status-conditions
returns. -/
def lcFetchOutInv (o : LCOut) : Prop :=
  lcPreApplyInv o ∧ o.requeue = false ∧
    (o.error ≠ none → o.degraded ≠ none ∨ o.exit = LCExit.errTigeraStatusRead ∨
      o.exit = LCExit.errStatusCondUpdate)

/-- Invariant of gate- and store-phase error outputs: SetDegraded was
called. -/
def lcDegradedOutInv (o : LCOut) : Prop :=
  lcPreApplyInv o ∧ o.degraded ≠ none

/-- Shape of a fetch-phase result. -/
def lcFetchInv : Except LCOut LogCollector → Prop
  | .error o => lcFetchOutInv o
  | .ok _ => True

/-- Shape of a status-conditions step result. -/
def lcStatusCondInv : Except LCOut Unit → Prop
  | .error o => lcFetchOutInv o
  | .ok _ => True

/-- Shape of a gate-phase result. -/
def lcGatesInv : Except LCOut LCState → Prop
  | .error o => lcDegradedOutInv o
  | .ok _ => True

/-- Shape of the Linseed certificate selection result. -/
def lcLinseedInv : Except LCOut (Except String Bool) → Prop
  | .error o => lcDegradedOutInv o
  | .ok _ => True

/-- Shape of a store-phase (or store-step) result. -/
def lcStoresInv : Except LCOut Unit → Prop
  | .error o => lcDegradedOutInv o
  | .ok _ => True

theorem lcStatusCondInv_holds (w : LCWorld) : lcStatusCondInv (lcStatusConditions w) := by
  unfold lcStatusConditions
  repeat' (first | split | (simp only []))
  all_goals simp [lcStatusCondInv, lcFetchOutInv, lcPreApplyInv, plainExit]

theorem lcLinseedInv_holds (w : LCWorld) (inst : LogCollector) (mc mtm : Bool) :
    lcLinseedInv (lcLinseedSelect w inst mc mtm) := by
  unfold lcLinseedSelect
  repeat' (first | split | (simp only []))
  all_goals simp [lcLinseedInv, lcDegradedOutInv, lcPreApplyInv, degradedExit]

theorem lcS3Step_inv (w : LCWorld) (inst : LogCollector) : lcStoresInv (lcS3Step w inst) := by
  unfold lcS3Step
  repeat' (first | split | (simp only []))
  all_goals simp [lcStoresInv, lcDegradedOutInv, lcPreApplyInv, degradedExit]

theorem lcSplunkStep_inv (w : LCWorld) (inst : LogCollector) :
    lcStoresInv (lcSplunkStep w inst) := by
  unfold lcSplunkStep
  repeat' (first | split | (simp only []))
  all_goals simp [lcStoresInv, lcDegradedOutInv, lcPreApplyInv, degradedExit]

theorem lcSyslogCertStep_inv (w : LCWorld) (inst : LogCollector) :
    lcStoresInv (lcSyslogCertStep w inst) := by
  unfold lcSyslogCertStep
  repeat' (first | split | (simp only []))
  all_goals simp [lcStoresInv, lcDegradedOutInv, lcPreApplyInv, degradedExit]

theorem lcIdsStep_inv (inst : LogCollector) (mc : Bool) : lcStoresInv (lcIdsStep inst mc) := by
  unfold lcIdsStep
  repeat' (first | split | (simp only []))
  all_goals simp [lcStoresInv, lcDegradedOutInv, lcPreApplyInv, degradedExit]

theorem lcEksStep_inv (w : LCWorld) (inst : LogCollector) (installation : Installation) :
    lcStoresInv (lcEksStep w inst installation) := by
  unfold lcEksStep
  repeat' (first | split | (simp only []))
  all_goals simp [lcStoresInv, lcDegradedOutInv, lcPreApplyInv, degradedExit]

theorem lcStatusCond_error {r : Except LCOut Unit} (hr : lcStatusCondInv r) {o : LCOut}
    (h : r = .error o) : lcFetchOutInv o := by rw [h] at hr; exact hr

theorem lcLinseed_error {r : Except LCOut (Except String Bool)} (hr : lcLinseedInv r)
    {o : LCOut} (h : r = .error o) : lcDegradedOutInv o := by rw [h] at hr; exact hr

theorem lcStoresStep_error {r : Except LCOut Unit} (hr : lcStoresInv r) {o : LCOut}
    (h : r = .error o) : lcDegradedOutInv o := by rw [h] at hr; exact hr

theorem lcFetchInv_holds (w : LCWorld) : lcFetchInv (lcPhaseFetch w) := by
  unfold lcPhaseFetch GetLogCollector
  repeat' (first | split | (simp only []))
  all_goals first
    | exact lcStatusCond_error (lcStatusCondInv_holds w) (by assumption)
    | simp [lcFetchInv, lcFetchOutInv, lcPreApplyInv, plainExit, degradedExit]

theorem lcGatesInv_holds (w : LCWorld) (inst : LogCollector) :
    lcGatesInv (lcPhaseGates w inst) := by
  unfold lcPhaseGates
  repeat' (first | split | (simp only []))
  all_goals first
    | exact lcLinseed_error (lcLinseedInv_holds w inst _ _) (by assumption)
    | simp [lcGatesInv, lcDegradedOutInv, lcPreApplyInv, degradedExit]

theorem lcStoresInv_holds (w : LCWorld) (s : LCState) :
    lcStoresInv (lcPhaseStores w s) := by
  unfold lcPhaseStores
  repeat' (first | split | (simp only []))
  all_goals first
    | exact lcStoresStep_error (lcS3Step_inv w s.inst) (by assumption)
    | exact lcStoresStep_error (lcSplunkStep_inv w s.inst) (by assumption)
    | exact lcStoresStep_error (lcSyslogCertStep_inv w s.inst) (by assumption)
    | exact lcStoresStep_error (lcIdsStep_inv s.inst s.managedCluster) (by assumption)
    | exact lcStoresStep_error (lcEksStep_inv w s.inst s.installation) (by assumption)
    | simp [lcStoresInv, lcDegradedOutInv, lcPreApplyInv, degradedExit]

/-- Shape of the apply phase: degraded-on-error except at the Windows-node
query and the final status update; requeue only after clearing; clearing
happens exactly at the three final exits, with the full ordered apply
list, a Windows component exactly when the node query reported Windows
nodes, and the Ready state set exactly when the status manager is
available. -/
theorem lcPhaseApply_shape (w : LCWorld) :
    ((lcPhaseApply w).error ≠ none →
      (lcPhaseApply w).degraded ≠ none ∨ (lcPhaseApply w).exit = LCExit.errHasWindowsNodes ∨
      (lcPhaseApply w).exit = LCExit.errFinalStatusUpdate)
    ∧ ((lcPhaseApply w).requeue = true → (lcPhaseApply w).cleared = true)
    ∧ ((lcPhaseApply w).cleared = true ↔
        ((lcPhaseApply w).exit = LCExit.notAvailable ∨
         (lcPhaseApply w).exit = LCExit.errFinalStatusUpdate ∨
         (lcPhaseApply w).exit = LCExit.success))
    ∧ ((lcPhaseApply w).cleared = true →
        (lcPhaseApply w).applies =
          [CompKind.setup, CompKind.fluentdLinux, CompKind.certMgmt] ++
          (if (lcPhaseApply w).windowsRendered then [CompKind.fluentdWindows] else []))
    ∧ ((lcPhaseApply w).applies =
          [CompKind.setup, CompKind.fluentdLinux, CompKind.certMgmt] ++
          (if (lcPhaseApply w).windowsRendered then [CompKind.fluentdWindows] else []) →
        (lcPhaseApply w).cleared = true ∨ (lcPhaseApply w).exit = LCExit.errHasWindowsNodes)
    ∧ ((lcPhaseApply w).cleared = true →
        ((lcPhaseApply w).windowsRendered = true ↔ w.hasWindowsNodes = .ok true))
    ∧ ((lcPhaseApply w).cleared = true →
        ((lcPhaseApply w).stateSetReady = true ↔ w.statusAvailable = true)
        ∧ (w.statusAvailable = false →
            (lcPhaseApply w).requeue = true ∧ (lcPhaseApply w).error = none ∧
            (lcPhaseApply w).stateSetReady = false)) := by
  unfold lcPhaseApply lcFinish
  repeat' (first | split | (simp only []))
  all_goals simp_all

/-- An error exit of the fetch phase satisfies the fetch-output
invariant. -/
theorem lcPhaseFetch_error (w : LCWorld) {o : LCOut} (h : lcPhaseFetch w = .error o) :
    lcFetchOutInv o := by
  have hb := lcFetchInv_holds w; rw [h] at hb; exact hb

/-- An error exit of the gate phase satisfies the degraded-output
invariant. -/
theorem lcPhaseGates_error (w : LCWorld) (inst : LogCollector) {o : LCOut}
    (h : lcPhaseGates w inst = .error o) : lcDegradedOutInv o := by
  have hb := lcGatesInv_holds w inst; rw [h] at hb; exact hb

/-- An error exit of the store phase satisfies the degraded-output
invariant. -/
theorem lcPhaseStores_error (w : LCWorld) (s : LCState) {o : LCOut}
    (h : lcPhaseStores w s = .error o) : lcDegradedOutInv o := by
  have hb := lcStoresInv_holds w s; rw [h] at hb; exact hb

/-- When the reconcile reaches ClearDegraded, the invocation is exactly the
apply phase. -/
theorem lc_cleared_run (w : LCWorld) (h : (reconcileLogCollector w).cleared = true) :
    reconcileLogCollector w = lcPhaseApply w := by
  unfold reconcileLogCollector at h ⊢
  rcases hf : lcPhaseFetch w with o | inst <;> simp only [hf] at h ⊢
  · exact absurd h (by simp [(lcPhaseFetch_error w hf).1.1])
  · rcases hg : lcPhaseGates w inst with o | s <;> simp only [hg] at h ⊢
    · exact absurd h (by simp [(lcPhaseGates_error w inst hg).1.1])
    · rcases hs : lcPhaseStores w s with o | u
      · simp only [hs] at h
        exact absurd h (by simp [(lcPhaseStores_error w s hs).1.1])
      · simp only [hs]

/-- Claim C1 as stated: every exit returning a non-nil error or requeuing
before completion has SetDegraded called first, and once every component
has been applied successfully ClearDegraded is called. -/
def lcDegradedClaim (w : LCWorld) : Prop :=
  (((reconcileLogCollector w).error ≠ none ∨
    ((reconcileLogCollector w).requeue = true ∧ (reconcileLogCollector w).cleared = false)) →
    (reconcileLogCollector w).degraded ≠ none)
  ∧ ((reconcileLogCollector w).applies =
      [CompKind.setup, CompKind.fluentdLinux, CompKind.certMgmt] ++
        (if (reconcileLogCollector w).windowsRendered then [CompKind.fluentdWindows] else []) →
      (reconcileLogCollector w).cleared = true)

/-- C1, counterexample: a reconcile invocation that is a status-conditions
request whose TigeraStatus read fails returns a non-nil error without ever
calling SetDegraded, so the claimed discipline fails at this world. -/
theorem lc_degraded_claim_false : ¬ lcDegradedClaim lcWorldStatusReadErr := by
  intro hcl
  have h1 := hcl.1 (Or.inl (by decide))
  exact h1 (by decide)

/-- C1, amended: except at the four exits that return an error without a
SetDegraded call (the TigeraStatus read and the status-conditions update in
the conditions branch, the Windows-node query, and the final status
update), every exit returning a non-nil error calls SetDegraded; every
requeue before ClearDegraded calls SetDegraded; ClearDegraded is only
called after the full ordered component list was applied; and a completed
apply reaches ClearDegraded except when the Windows-node query fails. -/
theorem lc_degraded_discipline (w : LCWorld) :
    ((reconcileLogCollector w).error ≠ none →
      (reconcileLogCollector w).degraded ≠ none ∨
      (reconcileLogCollector w).exit = LCExit.errTigeraStatusRead ∨
      (reconcileLogCollector w).exit = LCExit.errStatusCondUpdate ∨
      (reconcileLogCollector w).exit = LCExit.errHasWindowsNodes ∨
      (reconcileLogCollector w).exit = LCExit.errFinalStatusUpdate)
    ∧ ((reconcileLogCollector w).requeue = true → (reconcileLogCollector w).cleared = false →
        (reconcileLogCollector w).degraded ≠ none)
    ∧ ((reconcileLogCollector w).cleared = true →
        (reconcileLogCollector w).applies =
          [CompKind.setup, CompKind.fluentdLinux, CompKind.certMgmt] ++
          (if (reconcileLogCollector w).windowsRendered then [CompKind.fluentdWindows] else []))
    ∧ ((reconcileLogCollector w).applies =
        [CompKind.setup, CompKind.fluentdLinux, CompKind.certMgmt] ++
          (if (reconcileLogCollector w).windowsRendered then [CompKind.fluentdWindows] else []) →
        (reconcileLogCollector w).cleared = true ∨
        (reconcileLogCollector w).exit = LCExit.errHasWindowsNodes) := by
  unfold reconcileLogCollector
  rcases hf : lcPhaseFetch w with o | inst
  · simp only []
    obtain ⟨⟨hc, ha, hst⟩, hr, he⟩ := lcPhaseFetch_error w hf
    refine ⟨?_, ?_, ?_, ?_⟩
    · intro hne
      rcases he hne with h1 | h1 | h1
      · exact Or.inl h1
      · exact Or.inr (Or.inl h1)
      · exact Or.inr (Or.inr (Or.inl h1))
    · intro hrq _
      rw [hr] at hrq
      exact absurd hrq (by simp)
    · intro hcl
      rw [hc] at hcl
      exact absurd hcl (by simp)
    · intro happ
      rw [ha] at happ
      cases hwr : o.windowsRendered <;> simp [hwr] at happ
  · rcases hg : lcPhaseGates w inst with o | st
    · simp only [hg]
      obtain ⟨⟨hc, ha, hst⟩, hd⟩ := lcPhaseGates_error w inst hg
      refine ⟨fun _ => Or.inl hd, fun _ _ => hd, ?_, ?_⟩
      · intro hcl
        rw [hc] at hcl
        exact absurd hcl (by simp)
      · intro happ
        rw [ha] at happ
        cases hwr : o.windowsRendered <;> simp [hwr] at happ
    · rcases hs : lcPhaseStores w st with o | u
      · simp only [hg, hs]
        obtain ⟨⟨hc, ha, hst⟩, hd⟩ := lcPhaseStores_error w st hs
        refine ⟨fun _ => Or.inl hd, fun _ _ => hd, ?_, ?_⟩
        · intro hcl
          rw [hc] at hcl
          exact absurd hcl (by simp)
        · intro happ
          rw [ha] at happ
          cases hwr : o.windowsRendered <;> simp [hwr] at happ
      · simp only [hg, hs]
        obtain ⟨s1, s2, s3, s4, s5, s6, s7⟩ := lcPhaseApply_shape w
        refine ⟨?_, ?_, s4, ?_⟩
        · intro hne
          rcases s1 hne with h1 | h1 | h1
          · exact Or.inl h1
          · exact Or.inr (Or.inr (Or.inr (Or.inl h1)))
          · exact Or.inr (Or.inr (Or.inr (Or.inr h1)))
        · intro hrq hcl
          exact absurd (s2 hrq) (by simp [hcl])
        · exact s5

/-- C1 witness: the theorem applied at the all-success world. -/
theorem lc_degraded_discipline_witness :
    (reconcileLogCollector lcWorldGood).applies =
      [CompKind.setup, CompKind.fluentdLinux, CompKind.certMgmt] ++
      (if (reconcileLogCollector lcWorldGood).windowsRendered then [CompKind.fluentdWindows]
       else []) :=
  (lc_degraded_discipline lcWorldGood).2.2.1 (by decide)

/-- C5: in every invocation that reaches ClearDegraded, the components were
applied in the fixed order setup, Linux fluentd, certificate management,
with the Windows fluentd component, when rendered, applied after all
three. -/
theorem lc_apply_order (w : LCWorld) (h : (reconcileLogCollector w).cleared = true) :
    (reconcileLogCollector w).applies =
      [CompKind.setup, CompKind.fluentdLinux, CompKind.certMgmt] ++
      (if (reconcileLogCollector w).windowsRendered then [CompKind.fluentdWindows] else []) := by
  have hr := lc_cleared_run w h
  rw [hr] at h ⊢
  exact (lcPhaseApply_shape w).2.2.2.1 h

/-- C5 witness: the theorem applied at the all-success world. -/
theorem lc_apply_order_witness :
    (reconcileLogCollector lcWorldGood).applies =
      [CompKind.setup, CompKind.fluentdLinux, CompKind.certMgmt] ++
      (if (reconcileLogCollector lcWorldGood).windowsRendered then [CompKind.fluentdWindows]
       else []) :=
  lc_apply_order lcWorldGood (by decide)

/-- C6: a successful invocation renders and applies a Windows fluentd
component exactly when the cluster has Windows nodes; with no Windows
nodes, exactly the three Linux-phase components (one fluentd) are
applied. -/
theorem lc_windows_component (w : LCWorld) (h : (reconcileLogCollector w).cleared = true) :
    ((reconcileLogCollector w).windowsRendered = true ↔ w.hasWindowsNodes = .ok true)
    ∧ (CompKind.fluentdWindows ∈ (reconcileLogCollector w).applies ↔
        w.hasWindowsNodes = .ok true)
    ∧ (w.hasWindowsNodes = .ok false →
        (reconcileLogCollector w).applies =
          [CompKind.setup, CompKind.fluentdLinux, CompKind.certMgmt]) := by
  have hr := lc_cleared_run w h
  rw [hr] at h ⊢
  obtain ⟨s1, s2, s3, s4, s5, s6, s7⟩ := lcPhaseApply_shape w
  have happ := s4 h
  have hwiff := s6 h
  refine ⟨hwiff, ?_, ?_⟩
  · rw [happ]
    by_cases hwr : (lcPhaseApply w).windowsRendered = true
    · rw [hwr] at hwiff
      simp [hwr, hwiff.mp rfl]
    · have hwf : (lcPhaseApply w).windowsRendered = false := by
        cases hb : (lcPhaseApply w).windowsRendered
        · rfl
        · exact absurd hb hwr
      rw [hwf] at hwiff
      have hnot : ¬ w.hasWindowsNodes = .ok true := fun hok => by simpa using hwiff.mpr hok
      simp [hwf, hnot]
  · intro hno
    have hwr : (lcPhaseApply w).windowsRendered = false := by
      cases hb : (lcPhaseApply w).windowsRendered with
      | false => rfl
      | true =>
        rw [hb] at hwiff
        rw [hwiff.mp rfl] at hno
        exact absurd hno (by simp)
    rw [happ, hwr]
    simp

/-- C6 witness: the theorem applied at the Windows-nodes world. -/
theorem lc_windows_component_witness :
    CompKind.fluentdWindows ∈ (reconcileLogCollector lcWorldWindows).applies :=
  ((lc_windows_component lcWorldWindows (by decide)).2.1).mpr (by decide)

/-- C7: after all components applied, Status.State is set to Ready exactly
when the status manager is available; when it is not, the invocation
requeues after the standard retry with a nil error and leaves Status.State
unchanged. -/
theorem lc_ready_state (w : LCWorld) (h : (reconcileLogCollector w).cleared = true) :
    ((reconcileLogCollector w).stateSetReady = true ↔ w.statusAvailable = true)
    ∧ (w.statusAvailable = false →
        (reconcileLogCollector w).requeue = true ∧ (reconcileLogCollector w).error = none ∧
        (reconcileLogCollector w).stateSetReady = false) := by
  have hr := lc_cleared_run w h
  rw [hr] at h ⊢
  exact (lcPhaseApply_shape w).2.2.2.2.2.2 h

/-- C7 witness: the theorem applied at the all-success world. -/
theorem lc_ready_state_witness :
    (reconcileLogCollector lcWorldGood).stateSetReady = true :=
  (lc_ready_state lcWorldGood (by decide)).1.mpr (by decide)

/-- C9: `fillDefaults` modifies only the unset fields — a nil
CollectProcessPath becomes Enable, an empty syslog LogTypes becomes exactly
[Audit, DNS, Flows] (never IDSEvents), an empty syslog Encryption becomes
None — leaves every other field unchanged, returns exactly the names of
the fields it set, and is idempotent. -/
theorem fillDefaults_correct (i : LogCollector) :
    (fillDefaults i).1.spec.collectProcessPath =
      (if i.spec.collectProcessPath = none then some CollectProcessPath.enable
       else i.spec.collectProcessPath)
    ∧ (fillDefaults i).1.spec.additionalStores =
        (match i.spec.additionalStores with
         | none => none
         | some st =>
           some { st with syslog :=
             match st.syslog with
             | none => none
             | some sy =>
               some { sy with
                 logTypes :=
                   if (sy.logTypes.getD []).length = 0 then
                     some [SyslogLogType.audit, SyslogLogType.dns, SyslogLogType.flows]
                   else sy.logTypes,
                 encryption := if sy.encryption.length = 0 then "None" else sy.encryption } })
    ∧ (fillDefaults i).1.spec.additionalSourcesEks = i.spec.additionalSourcesEks
    ∧ (fillDefaults i).1.spec.multiTenantManagementClusterNamespace =
        i.spec.multiTenantManagementClusterNamespace
    ∧ (fillDefaults i).1.spec.rest = i.spec.rest
    ∧ (fillDefaults i).1.status = i.status
    ∧ (fillDefaults i).1.metaRest = i.metaRest
    ∧ (fillDefaults i).2 =
        (if i.spec.collectProcessPath = none then ["CollectProcessPath"] else [])
        ++ (match i.spec.additionalStores with
            | some st =>
              match st.syslog with
              | some sy =>
                (if (sy.logTypes.getD []).length = 0 then ["AdditionalStores.Syslog.LogTypes"]
                 else [])
                ++ (if sy.encryption.length = 0 then ["AdditionalStores.Syslog.Encryption"]
                    else [])
              | none => []
            | none => [])
    ∧ SyslogLogType.idsEvents ∉ [SyslogLogType.audit, SyslogLogType.dns, SyslogLogType.flows]
    ∧ fillDefaults (fillDefaults i).1 = ((fillDefaults i).1, []) := by
  obtain ⟨⟨cpp, stores, eksrc, ns, rest⟩, status, meta⟩ := i
  cases stores with
  | none => cases cpp <;> simp [fillDefaults]
  | some st =>
    obtain ⟨s3f, splf, syslog, strest⟩ := st
    cases syslog with
    | none => cases cpp <;> simp [fillDefaults]
    | some sy =>
      obtain ⟨epv, lt, enc, syrest⟩ := sy
      cases cpp <;> by_cases h1 : (lt.getD []).length = 0 <;> by_cases h2 : enc.length = 0 <;>
        simp [fillDefaults, h1, h2, show "None".length ≠ 0 by decide]

/-- C10: `getEksCloudwatchLogConfig` errs exactly when the region or group
name is empty, the secret read fails with a non-NotFound error, or the
secret exists with an empty AWS id or key; an absent secret yields no
config and no error; a successful read defaults the stream prefix and
fetch interval and passes everything else through. -/
theorem getEksCloudwatchLogConfig_correct (secret : GetRes EksSecret) (interval : Int)
    (region group pfx : String) :
    ((∃ e, getEksCloudwatchLogConfig secret interval region group pfx = .error e) ↔
      (region = "" ∨ group = "" ∨ (∃ e, secret = .err e) ∨
       (∃ s, secret = .ok s ∧ (s.awsId.length = 0 ∨ s.awsKey.length = 0))))
    ∧ (region ≠ "" → group ≠ "" → secret = .notFound →
        getEksCloudwatchLogConfig secret interval region group pfx = .ok none)
    ∧ (∀ s, secret = .ok s → region ≠ "" → group ≠ "" →
        s.awsId.length ≠ 0 → s.awsKey.length ≠ 0 →
        getEksCloudwatchLogConfig secret interval region group pfx =
          .ok (some { awsId := s.awsId, awsKey := s.awsKey, awsRegion := region,
                      groupName := group,
                      streamPfx := if pfx = "" then "kube-apiserver-audit-" else pfx,
                      fetchInterval := if interval = 0 then 60 else interval })) := by
  unfold getEksCloudwatchLogConfig
  by_cases hr : region = ""
  · simp [hr]
  · by_cases hg : group = ""
    · simp [hr, hg]
    · cases secret with
      | notFound => simp [hr, hg]
      | err e => simp [hr, hg]
      | ok s =>
        by_cases hid : s.awsId.length = 0
        · simp [hr, hg, hid]
        · by_cases hkey : s.awsKey.length = 0
          · simp [hr, hg, hid, hkey]
          · simp [hr, hg, hid, hkey]

/-- C10 witness: the theorem applied at a concrete successful read. -/
theorem getEksCloudwatchLogConfig_correct_witness :
    getEksCloudwatchLogConfig (.ok { awsId := "id", awsKey := "key" }) 0 "us-west-2"
        "grp" "" =
      .ok (some { awsId := "id", awsKey := "key", awsRegion := "us-west-2",
                  groupName := "grp",
                  streamPfx := if "" = "" then "kube-apiserver-audit-" else "",
                  fetchInterval := if (0 : Int) = 0 then 60 else 0 }) :=
  (getEksCloudwatchLogConfig_correct (.ok { awsId := "id", awsKey := "key" }) 0 "us-west-2"
      "grp" "").2.2 { awsId := "id", awsKey := "key" } rfl (by decide) (by decide)
      (by decide) (by decide)

/-! ## APIServer controller (`src/unnamed/part_002`) -/

/-- The `operatorv1.APIServer` custom resource: whether its
APIServerDeployment overrides pass `validateAPIServerResource`
(`ValidateReplicatedPodResourceOverrides` itself is not in src/ and is
abstracted to this flag). -/
structure APIServerCR where
  deploymentOverridesValid : Bool
deriving DecidableEq

/-- The ManagementCluster CR fields read by the APIServer controller:
whether `Spec.TLS` is set. -/
structure ManagementClusterData where
  tlsPresent : Bool
deriving DecidableEq

/-- The Authentication CR fields read by the APIServer controller. -/
structure AuthenticationCR where
  ready : Bool
  dexEnabled : Bool
deriving DecidableEq

/-- The components the APIServer reconcile loop applies, in the order they
are handed to `CreateOrUpdateOrDelete`. -/
inductive ApsComp where
  | policy
  | apiServer
  | certMgmt
deriving DecidableEq

/-- The return sites of `ReconcileAPIServer.Reconcile`, in source order. -/
inductive ApsExit where
  | crNotFound
  | errGetAPIServer
  | invalidAPIServer
  | errTigeraStatusRead
  | errStatusCondUpdate
  | installationNotFound
  | errInstallationQuery
  | variantUnset
  | errCertManagerCreate
  | errTLSKeyPair
  | errQueryServerTLS
  | errPullSecrets
  | errTrustedBundle
  | errApplicationLayer
  | errManagementCluster
  | errManagementClusterConnection
  | errBothMCAndMCC
  | errTunnelSecret
  | errTierQuery
  | errPrometheusCert
  | errAuthentication
  | errDexCert
  | dexCertNotReady
  | errKeyValidator
  | errK8sServiceEndpoint
  | errSetFinalizer
  | errRender
  | errImageSet
  | errApplyComponent (c : ApsComp)
  | notAvailable
  | errFinalStatusUpdate
  | success
deriving DecidableEq

/-- Which enterprise-only cluster reads an invocation performed. -/
structure ApsReads where
  trustedBundleCreated : Bool
  applicationLayer : Bool
  managementCluster : Bool
  managementClusterConnection : Bool
  tunnelSecret : Bool
  dexCertificate : Bool
  authentication : Bool
  keyValidator : Bool
deriving DecidableEq

/-- No enterprise-only read performed. -/
def apsReadsNone : ApsReads :=
  ⟨false, false, false, false, false, false, false, false⟩

/-- `render.APIServerConfiguration`: the fields of the configuration struct
that determine the claims under verification.  `rest` stands for the
remaining fields. -/
structure APIServerConfiguration where
  variant : String
  controlPlaneReplicas : Int
  tlsKeyPairValid : Bool
  managementCluster : Option Unit
  managementClusterConnection : Option Unit
  applicationLayer : Option Unit
  trustedBundle : Option Unit
  keyValidatorConfig : Option Unit
  multiTenant : Bool
  forceHostNetwork : Bool
  openShift : Bool
  rest : String
deriving DecidableEq

/-- A rendered Kubernetes API object, identified by kind, name and
namespace (cluster-scoped objects use the empty namespace). -/
structure K8sObj where
  kind : String
  name : String
  ns : String
deriving DecidableEq

/-- The object list `render.APIServer` produces for the default Enterprise
configuration, as fixed by the render test in src/ (part_000 lines
334-363). -/
def apiServerObjectsEnterpriseDefault : List K8sObj :=
  [⟨"ConfigMap", "calico-audit-policy", "calico-system"⟩,
   ⟨"ConfigMap", "tigera-ca-bundle", "calico-system"⟩,
   ⟨"ServiceAccount", "calico-apiserver", "calico-system"⟩,
   ⟨"ClusterRole", "calico-apiserver", ""⟩,
   ⟨"ClusterRole", "calico-crds", ""⟩,
   ⟨"ClusterRoleBinding", "calico-apiserver", ""⟩,
   ⟨"ClusterRoleBinding", "calico-apiserver-access-calico-crds", ""⟩,
   ⟨"ClusterRole", "calico-tier-getter", ""⟩,
   ⟨"ClusterRoleBinding", "calico-tier-getter", ""⟩,
   ⟨"ClusterRole", "calico-tiered-policy-passthrough", ""⟩,
   ⟨"ClusterRoleBinding", "calico-tiered-policy-passthrough", ""⟩,
   ⟨"ClusterRole", "calico-uisettings-passthrough", ""⟩,
   ⟨"ClusterRoleBinding", "calico-uisettings-passthrough", ""⟩,
   ⟨"ClusterRole", "calico-extension-apiserver-auth-access", ""⟩,
   ⟨"ClusterRoleBinding", "calico-extension-apiserver-auth-access", ""⟩,
   ⟨"ClusterRoleBinding", "calico-apiserver-delegate-auth", ""⟩,
   ⟨"RoleBinding", "calico-apiserver-auth-reader", "kube-system"⟩,
   ⟨"APIService", "v3.projectcalico.org", ""⟩,
   ⟨"Deployment", "calico-apiserver", "calico-system"⟩,
   ⟨"Service", "calico-api", "calico-system"⟩,
   ⟨"PodDisruptionBudget", "calico-apiserver", "calico-system"⟩,
   ⟨"ClusterRole", "calico-uisettingsgroup-getter", ""⟩,
   ⟨"ClusterRoleBinding", "calico-uisettingsgroup-getter", ""⟩,
   ⟨"ClusterRole", "tigera-ui-user", ""⟩,
   ⟨"ClusterRole", "tigera-network-admin", ""⟩,
   ⟨"ClusterRole", "calico-webhook-reader", ""⟩,
   ⟨"ClusterRoleBinding", "calico-apiserver-webhook-reader", ""⟩]

/-- The additional objects `render.APIServer` produces when a
ManagementCluster is configured (single tenant), as fixed by the
management-cluster render test in src/ (part_000 lines 1025-1089).  The two
RBAC names stand for `render.ManagedClustersWatchClusterRoleName` and
`render.APIServerSecretsRBACName`, whose literal values are not in src/. -/
def apiServerObjectsEnterpriseMCMExtra : List K8sObj :=
  [⟨"ClusterRole", "ManagedClustersWatchClusterRole", ""⟩,
   ⟨"Role", "APIServerSecretsRBAC", "calico-system"⟩,
   ⟨"RoleBinding", "APIServerSecretsRBAC", "calico-system"⟩]

/-- The object list `render.APIServer` produces for the default Calico
configuration, as fixed by the render test in src/ (part_000 lines
2000-2032). -/
def apiServerObjectsCalicoDefault : List K8sObj :=
  [⟨"ClusterRole", "calico-crds", ""⟩,
   ⟨"ServiceAccount", "calico-apiserver", "calico-system"⟩,
   ⟨"ClusterRoleBinding", "calico-apiserver-access-calico-crds", ""⟩,
   ⟨"ClusterRole", "calico-tier-getter", ""⟩,
   ⟨"ClusterRoleBinding", "calico-tier-getter", ""⟩,
   ⟨"ClusterRole", "calico-tiered-policy-passthrough", ""⟩,
   ⟨"ClusterRoleBinding", "calico-tiered-policy-passthrough", ""⟩,
   ⟨"ClusterRole", "calico-extension-apiserver-auth-access", ""⟩,
   ⟨"ClusterRoleBinding", "calico-extension-apiserver-auth-access", ""⟩,
   ⟨"ClusterRoleBinding", "calico-apiserver-delegate-auth", ""⟩,
   ⟨"RoleBinding", "calico-apiserver-auth-reader", "kube-system"⟩,
   ⟨"APIService", "v3.projectcalico.org", ""⟩,
   ⟨"Deployment", "calico-apiserver", "calico-system"⟩,
   ⟨"Service", "calico-api", "calico-system"⟩,
   ⟨"PodDisruptionBudget", "calico-apiserver", "calico-system"⟩,
   ⟨"ClusterRole", "calico-webhook-reader", ""⟩,
   ⟨"ClusterRoleBinding", "calico-apiserver-webhook-reader", ""⟩,
   ⟨"NetworkPolicy", "allow-apiserver", "calico-system"⟩]

/-- Modelled from the spec: `render.APIServer` is not in src/ (only its
render tests are).  Per the glossary ("Render: the process of producing a
list of target Kubernetes API objects from a configuration struct") it is a
pure function of the configuration; the produced object lists are fixed by
the render tests in src/ for the configurations they exercise: the default
Enterprise and Calico configurations and the Enterprise configuration with
a single-tenant ManagementCluster.  Multi-tenant-only variations of the
list are not modelled; the theorems below stay within the modelled
configurations. -/
def renderAPIServer (cfg : APIServerConfiguration) : Except String (List K8sObj) :=
  if !cfg.tlsKeyPairValid then .error "invalid TLS key pair"
  else if cfg.variant = TigeraSecureEnterprise then
    .ok (apiServerObjectsEnterpriseDefault ++
      (if cfg.managementCluster.isSome && !cfg.multiTenant then
        apiServerObjectsEnterpriseMCMExtra
       else []))
  else .ok apiServerObjectsCalicoDefault

/-- Modelled from the spec: `utils.MaintainInstallationFinalizer` is not in
src/.  Per the doc comment on `maintainFinalizer` (part_002 lines 535-538)
and the spec glossary entry for finalizers, the finalizer is added to the
Installation while the API server resource exists, and removed only once
the API server is gone and the calico-apiserver Deployment pods have
stopped running; otherwise the finalizer is left unchanged.  A failing
client update returns an error and leaves the state unchanged. -/
def MaintainInstallationFinalizer (finalizerBefore apiserverPresent podsRunning updateOk :
    Bool) : Except String Bool :=
  if apiserverPresent then
    if finalizerBefore then .ok true
    else if updateOk then .ok true
    else .error "failed to update Installation finalizer"
  else if !podsRunning then
    if finalizerBefore then
      if updateOk then .ok false
      else .error "failed to update Installation finalizer"
    else .ok false
  else .ok finalizerBefore

/-- The cluster state and call outcomes one `ReconcileAPIServer.Reconcile`
invocation can observe, one field per client read or external call in
source order. -/
structure ApsWorld where
  apiServerGet : GetRes APIServerCR
  requestIsStatusRequest : Bool
  tigeraStatusGet : Except String Unit
  statusConditionsUpdateOk : Bool
  installationGet : GetRes Installation
  certManagerCreate : Except String Unit
  tlsKeyPair : Except String Unit
  queryServerKeyPair : Except String Unit
  pullSecretsErr : Option String
  trustedBundleCreate : Except String Unit
  applicationLayerGet : Except String (Option Unit)
  mcGet : Except String (Option ManagementClusterData)
  mccGet : Except String (Option Unit)
  multiTenant : Bool
  openShift : Bool
  tunnelSecretGet : Except String (Option Unit)
  tierWatchReady : Bool
  tierGet : GetRes Unit
  prometheusCert : Except String (Option Unit)
  authenticationGet : GetRes AuthenticationCR
  dexCert : Except String (Option Unit)
  keyValidatorGet : Except String Unit
  k8sServiceEpErr : Option String
  finalizerPresent : Bool
  apiServerPodsRunning : Bool
  finalizerUpdateOk : Bool
  imageSet : Except String Unit
  applyPolicy : Except String Unit
  applyAPIServer : Except String Unit
  applyCertMgmt : Except String Unit
  statusAvailable : Bool
  finalStatusUpdateOk : Bool
deriving DecidableEq

/-- The observable outcome of one `ReconcileAPIServer.Reconcile`
invocation.  `cfg` is the `render.APIServerConfiguration` once built,
`tunnelCAKeyPair` the local key pair handed to the certificate-management
component, `dexCertAdded` whether the Dex certificate was added to the
trusted bundle, and `finalizerAfter` the Installation finalizer state when
the invocation returns. -/
structure ApsOut where
  exit : ApsExit
  error : Option String
  requeue : Bool
  onCRFound : Bool
  onCRNotFound : Bool
  degraded : Option Degraded
  cleared : Bool
  applies : List ApsComp
  finalizerAfter : Bool
  cfg : Option APIServerConfiguration
  tunnelCAKeyPair : Option Unit
  dexCertAdded : Bool
  reads : ApsReads
  stateSetReady : Bool
deriving DecidableEq

/-- A degraded error exit of the APIServer reconcile before components are
applied. -/
def apsDegraded (w : ApsWorld) (e : ApsExit) (d : Degraded) (err : Option String)
    (reads : ApsReads) : ApsOut :=
  { exit := e, error := err, requeue := false, onCRFound := true, onCRNotFound := false,
    degraded := some d, cleared := false, applies := [], finalizerAfter := w.finalizerPresent,
    cfg := none, tunnelCAKeyPair := none, dexCertAdded := false, reads := reads,
    stateSetReady := false }

/-- An exit of the APIServer reconcile that does not touch the status
manager. -/
def apsPlain (w : ApsWorld) (e : ApsExit) (err : Option String) : ApsOut :=
  { exit := e, error := err, requeue := false, onCRFound := true, onCRNotFound := false,
    degraded := none, cleared := false, applies := [], finalizerAfter := w.finalizerPresent,
    cfg := none, tunnelCAKeyPair := none, dexCertAdded := false, reads := apsReadsNone,
    stateSetReady := false }

/-- Lines 224-262: fetch and validate the APIServer CR (handling deletion
through `maintainFinalizer(nil)`), and update status conditions for a
TigeraStatus-triggered request. -/
def apsPhaseFetch (w : ApsWorld) : Except ApsOut APIServerCR :=
  match w.apiServerGet with
  | .notFound =>
      match MaintainInstallationFinalizer w.finalizerPresent false w.apiServerPodsRunning
          w.finalizerUpdateOk with
      | .ok fin =>
          .error { exit := .crNotFound, error := none, requeue := false, onCRFound := false,
                   onCRNotFound := true, degraded := none, cleared := false, applies := [],
                   finalizerAfter := fin, cfg := none, tunnelCAKeyPair := none,
                   dexCertAdded := false, reads := apsReadsNone, stateSetReady := false }
      | .error e =>
          .error { exit := .crNotFound, error := some e, requeue := false, onCRFound := false,
                   onCRNotFound := true, degraded := none, cleared := false, applies := [],
                   finalizerAfter := w.finalizerPresent, cfg := none, tunnelCAKeyPair := none,
                   dexCertAdded := false, reads := apsReadsNone, stateSetReady := false }
  | .err e =>
      .error { exit := .errGetAPIServer, error := some e, requeue := false, onCRFound := false,
               onCRNotFound := false,
               degraded := some ⟨.resourceReadError,
                 "An error occurred when querying the APIServer resource"⟩,
               cleared := false, applies := [], finalizerAfter := w.finalizerPresent,
               cfg := none, tunnelCAKeyPair := none, dexCertAdded := false,
               reads := apsReadsNone, stateSetReady := false }
  | .ok inst =>
    if !inst.deploymentOverridesValid then
      .error (apsDegraded w .invalidAPIServer
        ⟨.resourceValidationError, "APIServer is invalid"⟩ (some "invalid overrides")
        apsReadsNone)
    else if w.requestIsStatusRequest then
      match w.tigeraStatusGet with
      | .error e => .error (apsPlain w .errTigeraStatusRead (some e))
      | .ok _ =>
        if !w.statusConditionsUpdateOk then
          .error (apsPlain w .errStatusCondUpdate (some "status conditions update failed"))
        else .ok inst
    else .ok inst

/-- Lines 264-308: the Installation, the certificate manager, the API
server TLS key pair, the optional query-server key pair and the pull
secrets. -/
def apsPhaseInstall (w : ApsWorld) : Except ApsOut Installation :=
  match w.installationGet with
  | .notFound =>
      .error (apsDegraded w .installationNotFound
        ⟨.resourceNotFound, "Installation not found"⟩ (some "NotFound") apsReadsNone)
  | .err e =>
      .error (apsDegraded w .errInstallationQuery
        ⟨.resourceReadError, "Error querying installation"⟩ (some e) apsReadsNone)
  | .ok installation =>
  if installation.variant = "" then
    .error (apsDegraded w .variantUnset
      ⟨.resourceNotReady, "Waiting for Installation Variant to be set"⟩ none apsReadsNone)
  else
    match w.certManagerCreate with
    | .error e =>
        .error (apsDegraded w .errCertManagerCreate
          ⟨.resourceCreateError, "Unable to create the Tigera CA"⟩ (some e) apsReadsNone)
    | .ok _ =>
    match w.tlsKeyPair with
    | .error e =>
        .error (apsDegraded w .errTLSKeyPair
          ⟨.resourceCreateError, "Unable to get or create tls key pair"⟩ (some e) apsReadsNone)
    | .ok _ =>
    let queryStep : Except ApsOut Unit :=
      if installation.certificateManagement then
        match w.queryServerKeyPair with
        | .error e =>
            .error (apsDegraded w .errQueryServerTLS
              ⟨.resourceCreateError, "Unable to get or create tls key pair"⟩ (some e)
              apsReadsNone)
        | .ok _ => .ok ()
      else .ok ()
    match queryStep with
    | .error o => .error o
    | .ok _ =>
    match w.pullSecretsErr with
    | some e =>
        .error (apsDegraded w .errPullSecrets
          ⟨.resourceReadError, "Error retrieving pull secrets"⟩ (some e) apsReadsNone)
    | none => .ok installation

/-- State carried out of the enterprise-only block (part_002 lines
310-429): the enterprise resources gathered (all nil for other variants),
whether v3 NetworkPolicy is included, and the reads performed. -/
structure ApsEnterpriseData where
  trustedBundle : Option Unit
  applicationLayer : Option Unit
  managementCluster : Option ManagementClusterData
  managementClusterConnection : Option Unit
  tunnelCAKeyPair : Option Unit
  keyValidatorConfig : Option Unit
  includeV3NetworkPolicy : Bool
  dexCertAdded : Bool
  reads : ApsReads
deriving DecidableEq

/-- The enterprise data when the variant is not TigeraSecureEnterprise:
everything nil, nothing read. -/
def apsEnterpriseDefaultData : ApsEnterpriseData :=
  { trustedBundle := none, applicationLayer := none, managementCluster := none,
    managementClusterConnection := none, tunnelCAKeyPair := none, keyValidatorConfig := none,
    includeV3NetworkPolicy := false, dexCertAdded := false, reads := apsReadsNone }

/-- Lines 351-369: read the tunnel CA secret for a single-tenant management
cluster with TLS configured. -/
def apsTunnelStep (w : ApsWorld) (mc : Option ManagementClusterData) (r : ApsReads) :
    Except ApsOut (Option Unit × ApsReads) :=
  match mc with
  | some m =>
    if m.tlsPresent && !w.multiTenant then
      let r5 : ApsReads := { r with tunnelSecret := true }
      match w.tunnelSecretGet with
      | .error e =>
          .error (apsDegraded w .errTunnelSecret
            ⟨.resourceReadError, "Unable to fetch the tunnel secret"⟩ (some e) r5)
      | .ok (some _) => .ok (some (), r5)
      | .ok none => .ok (none, r5)
    else .ok (none, r)
  | none => .ok (none, r)

/-- Lines 371-386: query the allow-tigera tier once its watch is ready;
NetworkPolicy is included only when the tier exists, and a missing tier or
API is tolerated. -/
def apsTierStep (w : ApsWorld) (r : ApsReads) : Except ApsOut Bool :=
  if w.tierWatchReady then
    match w.tierGet with
    | .err e =>
        .error (apsDegraded w .errTierQuery
          ⟨.resourceReadError, "Error querying allow-tigera tier"⟩ (some e) r)
    | .notFound => .ok false
    | .ok _ => .ok true
  else .ok false

/-- Lines 404-421: read the Dex TLS certificate when the ready
Authentication CR uses Dex. -/
def apsDexStep (w : ApsWorld) (auth : AuthenticationCR) (r : ApsReads) :
    Except ApsOut (Bool × ApsReads) :=
  if auth.dexEnabled then
    let r7 : ApsReads := { r with dexCertificate := true }
    match w.dexCert with
    | .error e =>
        .error (apsDegraded w .errDexCert
          ⟨.certificateError, "Failed to retrieve dex certificate"⟩ (some e) r7)
    | .ok none =>
        .error (apsDegraded w .dexCertNotReady
          ⟨.resourceNotReady, "Waiting for dex secret to become available"⟩ none r7)
    | .ok (some _) => .ok (true, r7)
  else .ok (false, r)

/-- Lines 396-428: fetch the Authentication CR; when it is ready, read the
Dex certificate when Dex is enabled and build the KeyValidatorConfig. -/
def apsAuthStep (w : ApsWorld) (r : ApsReads) :
    Except ApsOut (Option Unit × Bool × ApsReads) :=
  let r6 : ApsReads := { r with authentication := true }
  match w.authenticationGet with
  | .err e =>
      .error (apsDegraded w .errAuthentication
        ⟨.resourceReadError, "Error while fetching Authentication"⟩ (some e) r6)
  | .notFound => .ok (none, false, r6)
  | .ok auth =>
    if auth.ready then
      match apsDexStep w auth r6 with
      | .error o => .error o
      | .ok (dexAdded, r7) =>
        let r8 : ApsReads := { r7 with keyValidator := true }
        match w.keyValidatorGet with
        | .error e =>
            .error (apsDegraded w .errKeyValidator
              ⟨.resourceReadError, "Failed to get KeyValidator Config"⟩ (some e) r8)
        | .ok _ => .ok (some (), dexAdded, r8)
    else .ok (none, false, r6)

/-- Lines 310-429: the enterprise-only block, guarded by the Installation
variant: the trusted bundle, ApplicationLayer, ManagementCluster,
ManagementClusterConnection (rejecting the combination of both), tunnel CA
secret, tier query, Prometheus certificate, Authentication, Dex certificate
and KeyValidatorConfig. -/
def apsEnterprise (w : ApsWorld) (installation : Installation) :
    Except ApsOut ApsEnterpriseData :=
  if installation.variant = TigeraSecureEnterprise then
    let r1 : ApsReads := { apsReadsNone with trustedBundleCreated := true }
    match w.trustedBundleCreate with
    | .error e =>
        .error (apsDegraded w .errTrustedBundle
          ⟨.resourceCreateError, "Unable to create the trusted bundle"⟩ (some e) r1)
    | .ok _ =>
    let r2 : ApsReads := { r1 with applicationLayer := true }
    match w.applicationLayerGet with
    | .error e =>
        .error (apsDegraded w .errApplicationLayer
          ⟨.resourceReadError, "Error reading ApplicationLayer"⟩ (some e) r2)
    | .ok applicationLayer =>
    let r3 : ApsReads := { r2 with managementCluster := true }
    match w.mcGet with
    | .error e =>
        .error (apsDegraded w .errManagementCluster
          ⟨.resourceReadError, "Error reading ManagementCluster"⟩ (some e) r3)
    | .ok managementCluster =>
    let r4 : ApsReads := { r3 with managementClusterConnection := true }
    match w.mccGet with
    | .error e =>
        .error (apsDegraded w .errManagementClusterConnection
          ⟨.resourceReadError, "Error reading ManagementClusterConnection"⟩ (some e) r4)
    | .ok managementClusterConnection =>
    if managementClusterConnection.isSome && managementCluster.isSome then
      .error (apsDegraded w .errBothMCAndMCC ⟨.resourceValidationError, ""⟩
        (some "having both a ManagementCluster and a ManagementClusterConnection is not supported")
        r4)
    else
      match apsTunnelStep w managementCluster r4 with
      | .error o => .error o
      | .ok (tunnelCAKeyPair, r5) =>
      match apsTierStep w r5 with
      | .error o => .error o
      | .ok includeV3 =>
      match w.prometheusCert with
      | .error e =>
          .error (apsDegraded w .errPrometheusCert
            ⟨.resourceReadError, "Failed to get certificate"⟩ (some e) r5)
      | .ok _ =>
      match apsAuthStep w r5 with
      | .error o => .error o
      | .ok (keyValidatorConfig, dexAdded, r8) =>
        .ok { trustedBundle := some (), applicationLayer := applicationLayer,
              managementCluster := managementCluster,
              managementClusterConnection := managementClusterConnection,
              tunnelCAKeyPair := tunnelCAKeyPair, keyValidatorConfig := keyValidatorConfig,
              includeV3NetworkPolicy := includeV3, dexCertAdded := dexAdded, reads := r8 }
  else
    .ok apsEnterpriseDefaultData

/-- A degraded error exit after the enterprise block, carrying the gathered
enterprise data. -/
def apsDegradedD (d : ApsEnterpriseData) (e : ApsExit) (dg : Degraded)
    (err : Option String) (fin : Bool) (cfg : Option APIServerConfiguration)
    (applies : List ApsComp) : ApsOut :=
  { exit := e, error := err, requeue := false, onCRFound := true, onCRNotFound := false,
    degraded := some dg, cleared := false, applies := applies, finalizerAfter := fin,
    cfg := cfg, tunnelCAKeyPair := d.tunnelCAKeyPair, dexCertAdded := d.dexCertAdded,
    reads := d.reads, stateSetReady := false }

/-- Lines 508-521: ClearDegraded, the availability check, and the final
status update. -/
def apsFinish (w : ApsWorld) (d : ApsEnterpriseData) (cfg : APIServerConfiguration)
    (fin : Bool) (applies : List ApsComp) : ApsOut :=
  if !w.statusAvailable then
    { exit := .notAvailable, error := none, requeue := true, onCRFound := true,
      onCRNotFound := false, degraded := none, cleared := true, applies := applies,
      finalizerAfter := fin, cfg := some cfg, tunnelCAKeyPair := d.tunnelCAKeyPair,
      dexCertAdded := d.dexCertAdded, reads := d.reads, stateSetReady := false }
  else if !w.finalStatusUpdateOk then
    { exit := .errFinalStatusUpdate, error := some "status update failed", requeue := false,
      onCRFound := true, onCRNotFound := false, degraded := none, cleared := true,
      applies := applies, finalizerAfter := fin, cfg := some cfg,
      tunnelCAKeyPair := d.tunnelCAKeyPair, dexCertAdded := d.dexCertAdded, reads := d.reads,
      stateSetReady := true }
  else
    { exit := .success, error := none, requeue := false, onCRFound := true,
      onCRNotFound := false, degraded := none, cleared := true, applies := applies,
      finalizerAfter := fin, cfg := some cfg, tunnelCAKeyPair := d.tunnelCAKeyPair,
      dexCertAdded := d.dexCertAdded, reads := d.reads, stateSetReady := true }

/-- Lines 501-521 (tail of the apply loop): apply the API server component
and the certificate-management component, then finish. -/
def apsApplyTail (w : ApsWorld) (d : ApsEnterpriseData) (cfg : APIServerConfiguration)
    (fin : Bool) (applies0 : List ApsComp) : ApsOut :=
  match w.applyAPIServer with
  | .error e =>
      apsDegradedD d (.errApplyComponent .apiServer)
        ⟨.resourceUpdateError, "Error creating / updating resource"⟩ (some e) fin (some cfg)
        applies0
  | .ok _ =>
  match w.applyCertMgmt with
  | .error e =>
      apsDegradedD d (.errApplyComponent .certMgmt)
        ⟨.resourceUpdateError, "Error creating / updating resource"⟩ (some e) fin (some cfg)
        (applies0 ++ [.apiServer])
  | .ok _ => apsFinish w d cfg fin (applies0 ++ [.apiServer, .certMgmt])

/-- Lines 431-521: populate the Kubernetes service endpoint, maintain the
finalizer on the Installation, build the APIServerConfiguration, render,
apply the ImageSet and the components in order, and finish. -/
def apsPhaseFinal (w : ApsWorld) (installation : Installation) (d : ApsEnterpriseData) :
    ApsOut :=
  match w.k8sServiceEpErr with
  | some e =>
      apsDegradedD d .errK8sServiceEndpoint
        ⟨.resourceReadError, "Error reading services endpoint configmap"⟩ (some e)
        w.finalizerPresent none []
  | none =>
  match MaintainInstallationFinalizer w.finalizerPresent true w.apiServerPodsRunning
      w.finalizerUpdateOk with
  | .error e =>
      apsDegradedD d .errSetFinalizer
        ⟨.resourceReadError, "Error setting finalizer on Installation"⟩ (some e)
        w.finalizerPresent none []
  | .ok fin =>
  let apiServerCfg : APIServerConfiguration :=
    { variant := installation.variant,
      controlPlaneReplicas := installation.controlPlaneReplicas,
      tlsKeyPairValid := true,
      managementCluster := d.managementCluster.map (fun _ => ()),
      managementClusterConnection := d.managementClusterConnection,
      applicationLayer := d.applicationLayer,
      trustedBundle := d.trustedBundle,
      keyValidatorConfig := d.keyValidatorConfig,
      multiTenant := w.multiTenant,
      forceHostNetwork := false,
      openShift := w.openShift,
      rest := "" }
  match renderAPIServer apiServerCfg with
  | .error e =>
      apsDegradedD d .errRender ⟨.resourceRenderingError, "Error rendering APIServer"⟩
        (some e) fin (some apiServerCfg) []
  | .ok _ =>
  match w.imageSet with
  | .error e =>
      apsDegradedD d .errImageSet ⟨.resourceUpdateError, "Error with images from ImageSet"⟩
        (some e) fin (some apiServerCfg) []
  | .ok _ =>
  if d.includeV3NetworkPolicy then
    match w.applyPolicy with
    | .error e =>
        apsDegradedD d (.errApplyComponent .policy)
          ⟨.resourceUpdateError, "Error creating / updating resource"⟩ (some e) fin
          (some apiServerCfg) []
    | .ok _ => apsApplyTail w d apiServerCfg fin [.policy]
  else apsApplyTail w d apiServerCfg fin []

/-- `ReconcileAPIServer.Reconcile`: the whole reconcile invocation as a
function from the observable cluster state to the invocation outcome. -/
def reconcileAPIServer (w : ApsWorld) : ApsOut :=
  match apsPhaseFetch w with
  | .error o => o
  | .ok _ =>
    match apsPhaseInstall w with
    | .error o => o
    | .ok installation =>
      match apsEnterprise w installation with
      | .error o => o
      | .ok d => apsPhaseFinal w installation d

/-- A world in which every read and call of the APIServer reconcile
succeeds on an Enterprise installation with neither ManagementCluster nor
ManagementClusterConnection. -/
def apsWorldGood : ApsWorld :=
  { apiServerGet := .ok { deploymentOverridesValid := true }
    requestIsStatusRequest := false
    tigeraStatusGet := .ok ()
    statusConditionsUpdateOk := true
    installationGet := .ok { variant := TigeraSecureEnterprise,
                             kubernetesProviderIsEKS := false,
                             certificateManagement := false,
                             controlPlaneReplicas := 2, rest := "" }
    certManagerCreate := .ok ()
    tlsKeyPair := .ok ()
    queryServerKeyPair := .ok ()
    pullSecretsErr := none
    trustedBundleCreate := .ok ()
    applicationLayerGet := .ok none
    mcGet := .ok none
    mccGet := .ok none
    multiTenant := false
    openShift := false
    tunnelSecretGet := .ok none
    tierWatchReady := true
    tierGet := .ok ()
    prometheusCert := .ok none
    authenticationGet := .notFound
    dexCert := .ok none
    keyValidatorGet := .ok ()
    k8sServiceEpErr := none
    finalizerPresent := false
    apiServerPodsRunning := true
    finalizerUpdateOk := true
    imageSet := .ok ()
    applyPolicy := .ok ()
    applyAPIServer := .ok ()
    applyCertMgmt := .ok ()
    statusAvailable := true
    finalStatusUpdateOk := true }

example : (reconcileAPIServer apsWorldGood).exit = .success := by decide
example : (reconcileAPIServer apsWorldGood).finalizerAfter = true := by decide
example : (reconcileAPIServer apsWorldGood).applies = [.policy, .apiServer, .certMgmt] := by
  decide

/-- A world with both a ManagementCluster and a ManagementClusterConnection
on an Enterprise installation. -/
def apsWorldBothMC : ApsWorld :=
  { apsWorldGood with mcGet := .ok (some { tlsPresent := false }), mccGet := .ok (some ()) }

example : (reconcileAPIServer apsWorldBothMC).exit = .errBothMCAndMCC := by decide

/-- A world with a valid APIServer CR but an Installation whose Variant is
still empty, and no finalizer on the Installation yet. -/
def apsWorldVariantUnset : ApsWorld :=
  { apsWorldGood with
      installationGet := .ok { variant := "", kubernetesProviderIsEKS := false,
                               certificateManagement := false, controlPlaneReplicas := 2,
                               rest := "" } }

example : (reconcileAPIServer apsWorldVariantUnset).exit = .variantUnset := by decide
example : (reconcileAPIServer apsWorldVariantUnset).finalizerAfter = false := by decide

/-- A world on a Calico-variant installation. -/
def apsWorldCalico : ApsWorld :=
  { apsWorldGood with
      installationGet := .ok { variant := Calico, kubernetesProviderIsEKS := false,
                               certificateManagement := false, controlPlaneReplicas := 2,
                               rest := "" } }

example : (reconcileAPIServer apsWorldCalico).exit = .success := by decide
example : (reconcileAPIServer apsWorldCalico).reads = apsReadsNone := by decide
example : (reconcileAPIServer apsWorldCalico).applies = [.apiServer, .certMgmt] := by decide

/-- A world in which the APIServer CR has been deleted, its pods have
stopped, and the Installation still carries the finalizer. -/
def apsWorldCRGone : ApsWorld :=
  { apsWorldGood with apiServerGet := .notFound, apiServerPodsRunning := false,
                      finalizerPresent := true }

example : (reconcileAPIServer apsWorldCRGone).finalizerAfter = false := by decide
example : (reconcileAPIServer apsWorldCRGone).exit = .crNotFound := by decide

/-- Invariant of every error exit before components are applied: nothing
cleared or applied, no configuration built, no tunnel key pair or Dex
certificate, and the finalizer only ever removed on the CR-not-found path
with stopped pods. -/
def apsErrCore (w : ApsWorld) (o : ApsOut) : Prop :=
  o.cleared = false ∧ o.applies = [] ∧ o.cfg = none ∧ o.stateSetReady = false ∧
  o.tunnelCAKeyPair = none ∧ o.dexCertAdded = false ∧
  (o.finalizerAfter = false → w.finalizerPresent = true →
    w.apiServerGet = .notFound ∧ w.apiServerPodsRunning = false)

/-- Shape of a phase or step result: every error exit satisfies the core
invariant. -/
def apsStepInv (w : ApsWorld) {α : Type} : Except ApsOut α → Prop
  | .error o => apsErrCore w o
  | .ok _ => True

/-- Shape of a pre-enterprise result: no enterprise-only read was
performed. -/
def apsReadsNoneInv {α : Type} : Except ApsOut α → Prop
  | .error o => o.reads = apsReadsNone
  | .ok _ => True

/-- Shape of the install-phase success: the Installation returned is the
one read from the cluster. -/
def apsInstallOkInv (w : ApsWorld) : Except ApsOut Installation → Prop
  | .error _ => True
  | .ok inst => w.installationGet = .ok inst

/-- Shape of the enterprise block: errors satisfy the core invariant and
happen only under the Enterprise variant; on other variants the block
returns the all-nil data. -/
def apsEnterpriseInv (w : ApsWorld) (inst : Installation) :
    Except ApsOut ApsEnterpriseData → Prop
  | .error o => apsErrCore w o ∧ inst.variant = TigeraSecureEnterprise
  | .ok d => inst.variant ≠ TigeraSecureEnterprise → d = apsEnterpriseDefaultData

theorem apsStep_error {w : ApsWorld} {α : Type} {r : Except ApsOut α} (hr : apsStepInv w r)
    {o : ApsOut} (h : r = .error o) : apsErrCore w o := by rw [h] at hr; exact hr

theorem apsTunnelStep_inv (w : ApsWorld) (mc : Option ManagementClusterData) (r : ApsReads) :
    apsStepInv w (apsTunnelStep w mc r) := by
  unfold apsTunnelStep
  repeat' (first | split | (simp only []))
  all_goals simp_all [apsStepInv, apsErrCore, apsDegraded]

theorem apsTierStep_inv (w : ApsWorld) (r : ApsReads) : apsStepInv w (apsTierStep w r) := by
  unfold apsTierStep
  repeat' (first | split | (simp only []))
  all_goals simp_all [apsStepInv, apsErrCore, apsDegraded]

theorem apsDexStep_inv (w : ApsWorld) (auth : AuthenticationCR) (r : ApsReads) :
    apsStepInv w (apsDexStep w auth r) := by
  unfold apsDexStep
  repeat' (first | split | (simp only []))
  all_goals simp_all [apsStepInv, apsErrCore, apsDegraded]

theorem apsAuthStep_inv (w : ApsWorld) (r : ApsReads) : apsStepInv w (apsAuthStep w r) := by
  unfold apsAuthStep
  repeat' (first | split | (simp only []))
  all_goals first
    | exact apsStep_error (apsDexStep_inv w _ _) (by assumption)
    | simp_all [apsStepInv, apsErrCore, apsDegraded]

theorem apsPhaseFetch_inv (w : ApsWorld) : apsStepInv w (apsPhaseFetch w) := by
  unfold apsPhaseFetch MaintainInstallationFinalizer
  repeat' (first | split | (simp only []))
  all_goals try (split_ifs at *)
  all_goals simp_all [apsStepInv, apsErrCore, apsDegraded, apsPlain]

theorem apsPhaseFetch_reads (w : ApsWorld) : apsReadsNoneInv (apsPhaseFetch w) := by
  unfold apsPhaseFetch MaintainInstallationFinalizer
  repeat' (first | split | (simp only []))
  all_goals try (split_ifs at *)
  all_goals simp_all [apsReadsNoneInv, apsDegraded, apsPlain]

theorem apsPhaseInstall_inv (w : ApsWorld) : apsStepInv w (apsPhaseInstall w) := by
  unfold apsPhaseInstall
  repeat' (first | split | (simp only []))
  all_goals simp_all [apsStepInv, apsErrCore, apsDegraded]

theorem apsPhaseInstall_reads (w : ApsWorld) : apsReadsNoneInv (apsPhaseInstall w) := by
  unfold apsPhaseInstall
  repeat' (first | split | (simp only []))
  all_goals simp_all [apsReadsNoneInv, apsDegraded]

theorem apsPhaseInstall_ok (w : ApsWorld) : apsInstallOkInv w (apsPhaseInstall w) := by
  unfold apsPhaseInstall
  repeat' (first | split | (simp only []))
  all_goals simp_all [apsInstallOkInv]

theorem apsEnterprise_inv (w : ApsWorld) (inst : Installation) :
    apsEnterpriseInv w inst (apsEnterprise w inst) := by
  unfold apsEnterprise
  repeat' (first | split | (simp only []))
  all_goals first
    | exact ⟨apsStep_error (apsTunnelStep_inv w _ _) (by assumption), by assumption⟩
    | exact ⟨apsStep_error (apsTierStep_inv w _) (by assumption), by assumption⟩
    | exact ⟨apsStep_error (apsAuthStep_inv w _) (by assumption), by assumption⟩
    | simp_all [apsEnterpriseInv, apsErrCore, apsDegraded]

/-- `render.APIServer` does not fail on a configuration with a valid TLS
key pair. -/
theorem renderAPIServer_no_error (cfg : APIServerConfiguration)
    (h : cfg.tlsKeyPairValid = true) (e : String) : renderAPIServer cfg ≠ .error e := by
  unfold renderAPIServer
  rw [h]
  simp only [Bool.not_true, Bool.false_eq_true, if_false]
  split <;> simp

set_option maxHeartbeats 1000000 in
/-- Shape of the final phase: the output carries the enterprise data, the
finalizer is removed only on the CR-not-found path, a built configuration
implies the finalizer is present, and the configuration fields come from
the enterprise data. -/
theorem apsPhaseFinal_shape (w : ApsWorld) (inst : Installation) (d : ApsEnterpriseData) :
    (apsPhaseFinal w inst d).reads = d.reads
    ∧ (apsPhaseFinal w inst d).tunnelCAKeyPair = d.tunnelCAKeyPair
    ∧ (apsPhaseFinal w inst d).dexCertAdded = d.dexCertAdded
    ∧ ((apsPhaseFinal w inst d).finalizerAfter = false → w.finalizerPresent = true →
        w.apiServerGet = .notFound ∧ w.apiServerPodsRunning = false)
    ∧ ((apsPhaseFinal w inst d).cfg ≠ none → (apsPhaseFinal w inst d).finalizerAfter = true)
    ∧ (∀ c, (apsPhaseFinal w inst d).cfg = some c →
        c.applicationLayer = d.applicationLayer ∧
        c.managementCluster = d.managementCluster.map (fun _ => ()) ∧
        c.managementClusterConnection = d.managementClusterConnection ∧
        c.trustedBundle = d.trustedBundle ∧
        c.keyValidatorConfig = d.keyValidatorConfig) := by
  unfold apsPhaseFinal apsApplyTail apsFinish MaintainInstallationFinalizer
  repeat' (first | split | (simp only []))
  all_goals try (split_ifs at *)
  all_goals first
    | exact absurd (by assumption) (renderAPIServer_no_error _ rfl _)
    | simp_all [apsDegradedD]

/-- A valid APIServer CR exists in the world. -/
def apsValidCRPresent (w : ApsWorld) : Prop :=
  ∃ cr, w.apiServerGet = .ok cr ∧ cr.deploymentOverridesValid = true

/-- Claim C2 as stated: while a valid APIServer CR exists every reconcile
keeps the finalizer on the Installation (it is never absent), and the
finalizer is removed only once the CR is gone and the pods have stopped. -/
def apsFinalizerClaim (w : ApsWorld) : Prop :=
  (apsValidCRPresent w → (reconcileAPIServer w).finalizerAfter = true)
  ∧ ((reconcileAPIServer w).finalizerAfter = false → w.finalizerPresent = true →
      w.apiServerGet = .notFound ∧ w.apiServerPodsRunning = false)

/-- C2, counterexample: with a valid APIServer CR present but the
Installation Variant still unset, the reconcile exits before
`maintainFinalizer` is reached, so an Installation that does not yet carry
the finalizer still does not carry it afterwards — the finalizer is absent
while a valid APIServer CR is being reconciled. -/
theorem aps_finalizer_claim_false : ¬ apsFinalizerClaim apsWorldVariantUnset := fun h =>
  absurd (h.1 ⟨{ deploymentOverridesValid := true }, rfl, rfl⟩) (by decide)

/-- C2, amended: the finalizer is never removed while the APIServer CR
exists — removal happens only when the CR is not found and the
calico-apiserver pods have stopped; every reconcile that reaches the
render phase ensures the finalizer is present; and once the CR is gone and
its pods have stopped, the reconcile does remove the finalizer. -/
theorem aps_finalizer_discipline (w : ApsWorld) :
    ((reconcileAPIServer w).finalizerAfter = false → w.finalizerPresent = true →
      w.apiServerGet = .notFound ∧ w.apiServerPodsRunning = false)
    ∧ ((reconcileAPIServer w).cfg ≠ none → (reconcileAPIServer w).finalizerAfter = true)
    ∧ (w.apiServerGet = .notFound → w.apiServerPodsRunning = false →
        w.finalizerUpdateOk = true → (reconcileAPIServer w).finalizerAfter = false) := by
  refine ⟨?_, ?_, ?_⟩
  · unfold reconcileAPIServer
    rcases hf : apsPhaseFetch w with o | cr
    · simp only [hf]
      exact (apsStep_error (apsPhaseFetch_inv w) hf).2.2.2.2.2.2
    · rcases hi : apsPhaseInstall w with o | inst
      · simp only [hf, hi]
        exact (apsStep_error (apsPhaseInstall_inv w) hi).2.2.2.2.2.2
      · rcases he : apsEnterprise w inst with o | d
        · simp only [hf, hi, he]
          have hv := apsEnterprise_inv w inst
          rw [he] at hv
          exact hv.1.2.2.2.2.2.2
        · simp only [hf, hi, he]
          exact (apsPhaseFinal_shape w inst d).2.2.2.1
  · unfold reconcileAPIServer
    rcases hf : apsPhaseFetch w with o | cr
    · simp only [hf]
      intro hcfg
      exact absurd (apsStep_error (apsPhaseFetch_inv w) hf).2.2.1 hcfg
    · rcases hi : apsPhaseInstall w with o | inst
      · simp only [hf, hi]
        intro hcfg
        exact absurd (apsStep_error (apsPhaseInstall_inv w) hi).2.2.1 hcfg
      · rcases he : apsEnterprise w inst with o | d
        · simp only [hf, hi, he]
          intro hcfg
          have hv := apsEnterprise_inv w inst
          rw [he] at hv
          exact absurd hv.1.2.2.1 hcfg
        · simp only [hf, hi, he]
          exact (apsPhaseFinal_shape w inst d).2.2.2.2.1
  · intro h1 h2 h3
    unfold reconcileAPIServer apsPhaseFetch MaintainInstallationFinalizer
    rcases hfp : w.finalizerPresent <;> simp [h1, h2, h3, hfp]

/-- C2 witness: the theorem applied at the deleted-CR world. -/
theorem aps_finalizer_discipline_witness :
    (reconcileAPIServer apsWorldCRGone).finalizerAfter = false :=
  (aps_finalizer_discipline apsWorldCRGone).2.2 rfl rfl rfl

/-- Some enterprise-only cluster read was performed. -/
def apsAnyEnterpriseRead (r : ApsReads) : Prop :=
  r.trustedBundleCreated = true ∨ r.applicationLayer = true ∨ r.managementCluster = true ∨
  r.managementClusterConnection = true ∨ r.tunnelSecret = true ∨ r.dexCertificate = true ∨
  r.authentication = true ∨ r.keyValidator = true

/-- C4: the trusted bundle, ApplicationLayer, ManagementCluster,
ManagementClusterConnection, tunnel CA secret, Dex certificate,
Authentication and KeyValidatorConfig are queried only when the
Installation Variant is TigeraSecureEnterprise; on the Calico variant none
of these reads occur and all the corresponding configuration fields stay
nil. -/
theorem aps_enterprise_only_reads (w : ApsWorld) :
    (apsAnyEnterpriseRead (reconcileAPIServer w).reads →
      ∃ inst, w.installationGet = .ok inst ∧ inst.variant = TigeraSecureEnterprise)
    ∧ (∀ inst, w.installationGet = .ok inst → inst.variant = Calico →
        (reconcileAPIServer w).reads = apsReadsNone
        ∧ (reconcileAPIServer w).tunnelCAKeyPair = none
        ∧ (reconcileAPIServer w).dexCertAdded = false
        ∧ (∀ c, (reconcileAPIServer w).cfg = some c →
            c.applicationLayer = none ∧ c.managementCluster = none ∧
            c.managementClusterConnection = none ∧ c.trustedBundle = none ∧
            c.keyValidatorConfig = none)) := by
  unfold reconcileAPIServer
  rcases hf : apsPhaseFetch w with o | cr
  · simp only [hf]
    have hro := apsPhaseFetch_reads w
    rw [hf] at hro
    have hre : o.reads = apsReadsNone := hro
    have hc := apsStep_error (apsPhaseFetch_inv w) hf
    constructor
    · intro hr
      rw [hre] at hr
      simp [apsAnyEnterpriseRead, apsReadsNone] at hr
    · intro inst _ _
      exact ⟨hre, hc.2.2.2.2.1, hc.2.2.2.2.2.1, fun c hcfg => absurd hc.2.2.1 (by simp [hcfg])⟩
  · rcases hi : apsPhaseInstall w with o | inst
    · simp only [hf, hi]
      have hro := apsPhaseInstall_reads w
      rw [hi] at hro
      have hre : o.reads = apsReadsNone := hro
      have hc := apsStep_error (apsPhaseInstall_inv w) hi
      constructor
      · intro hr
        rw [hre] at hr
        simp [apsAnyEnterpriseRead, apsReadsNone] at hr
      · intro inst2 _ _
        exact ⟨hre, hc.2.2.2.2.1, hc.2.2.2.2.2.1, fun c hcfg => absurd hc.2.2.1 (by simp [hcfg])⟩
    · have hok := apsPhaseInstall_ok w
      rw [hi] at hok
      have hLocal : w.installationGet = GetRes.ok inst := hok
      rcases he : apsEnterprise w inst with o | d
      · simp only [hf, hi, he]
        have hv := apsEnterprise_inv w inst
        rw [he] at hv
        constructor
        · intro _
          exact ⟨inst, hLocal, hv.2⟩
        · intro inst2 hg2 hcal
          rw [hLocal] at hg2
          have heq2 : inst = inst2 := by simpa using hg2
          subst heq2
          have hv2 : apsErrCore w o ∧ inst.variant = TigeraSecureEnterprise := hv
          rw [hcal] at hv2
          exact absurd hv2.2 (by decide)
      · simp only [hf, hi, he]
        have hv := apsEnterprise_inv w inst
        rw [he] at hv
        obtain ⟨hr1, hr2, hr3, _, _, hr6⟩ := apsPhaseFinal_shape w inst d
        constructor
        · intro hread
          rw [hr1] at hread
          by_cases hent : inst.variant = TigeraSecureEnterprise
          · exact ⟨inst, hLocal, hent⟩
          · rw [hv hent] at hread
            simp [apsAnyEnterpriseRead, apsEnterpriseDefaultData, apsReadsNone] at hread
        · intro inst2 hg2 hcal
          rw [hLocal] at hg2
          have heq2 : inst = inst2 := by simpa using hg2
          subst heq2
          have hent : inst.variant ≠ TigeraSecureEnterprise := by
            rw [hcal]
            decide
          have hd := hv hent
          refine ⟨by rw [hr1, hd]; rfl, by rw [hr2, hd]; rfl, by rw [hr3, hd]; rfl, ?_⟩
          intro c hcfg
          have h6 := hr6 c hcfg
          rw [hd] at h6
          simpa [apsEnterpriseDefaultData] using h6

/-- C4 witness: the theorem applied at the Calico world. -/
theorem aps_enterprise_only_reads_witness :
    (reconcileAPIServer apsWorldCalico).reads = apsReadsNone :=
  ((aps_enterprise_only_reads apsWorldCalico).2
    { variant := Calico, kubernetesProviderIsEKS := false, certificateManagement := false,
      controlPlaneReplicas := 2, rest := "" } rfl rfl).1

/-- C8: with an Enterprise installation, a valid APIServer CR and both a
ManagementCluster and a ManagementClusterConnection present, the reconcile
sets a ResourceValidationError degraded status and returns the
"having both" error without building a configuration or applying any
component. -/
theorem aps_both_mc_rejected (w : ApsWorld) (cr : APIServerCR)
    (h1 : w.apiServerGet = .ok cr) (h2 : cr.deploymentOverridesValid = true)
    (h3 : w.requestIsStatusRequest = false) (inst : Installation)
    (h4 : w.installationGet = .ok inst) (h5 : inst.variant = TigeraSecureEnterprise)
    (h6 : w.certManagerCreate = .ok ()) (h7 : w.tlsKeyPair = .ok ())
    (h8 : inst.certificateManagement = false) (h9 : w.pullSecretsErr = none)
    (h10 : w.trustedBundleCreate = .ok ()) (al : Option Unit)
    (h11 : w.applicationLayerGet = .ok al) (mc : ManagementClusterData)
    (h12 : w.mcGet = .ok (some mc)) (h13 : w.mccGet = .ok (some ())) :
    (reconcileAPIServer w).exit = .errBothMCAndMCC
    ∧ (reconcileAPIServer w).error =
        some "having both a ManagementCluster and a ManagementClusterConnection is not supported"
    ∧ (reconcileAPIServer w).degraded = some ⟨.resourceValidationError, ""⟩
    ∧ (reconcileAPIServer w).applies = []
    ∧ (reconcileAPIServer w).cfg = none := by
  have hvne : ¬ TigeraSecureEnterprise = "" := by decide
  unfold reconcileAPIServer apsPhaseFetch apsPhaseInstall apsEnterprise
  simp [h1, h2, h3, h4, h5, h6, h7, h8, h9, h10, h11, h12, h13, hvne, apsDegraded]

/-- C8 witness: the theorem applied at the both-configured world. -/
theorem aps_both_mc_rejected_witness :
    (reconcileAPIServer apsWorldBothMC).exit = .errBothMCAndMCC :=
  (aps_both_mc_rejected apsWorldBothMC { deploymentOverridesValid := true } rfl rfl rfl
    { variant := TigeraSecureEnterprise, kubernetesProviderIsEKS := false,
      certificateManagement := false, controlPlaneReplicas := 2, rest := "" }
    rfl rfl rfl rfl rfl rfl rfl none rfl { tlsPresent := false } rfl rfl).1

/-- The default Enterprise render configuration exercised by the render
test: two control-plane replicas, a valid TLS key pair, and no optional
resources. -/
def apsCfgEnterpriseDefault : APIServerConfiguration :=
  { variant := TigeraSecureEnterprise, controlPlaneReplicas := 2, tlsKeyPairValid := true,
    managementCluster := none, managementClusterConnection := none, applicationLayer := none,
    trustedBundle := some (), keyValidatorConfig := none, multiTenant := false,
    forceHostNetwork := false, openShift := true, rest := "" }

/-- The Enterprise render configuration with a single-tenant
ManagementCluster configured. -/
def apsCfgMCM : APIServerConfiguration :=
  { variant := TigeraSecureEnterprise, controlPlaneReplicas := 2, tlsKeyPairValid := true,
    managementCluster := some (), managementClusterConnection := none,
    applicationLayer := none, trustedBundle := some (), keyValidatorConfig := none,
    multiTenant := false, forceHostNetwork := false, openShift := true, rest := "" }

/-- Claim C3 as stated: every Enterprise configuration with two replicas
and a valid TLS key pair renders exactly the fixed default object list. -/
def apsRenderDefaultClaim : Prop :=
  ∀ cfg : APIServerConfiguration, cfg.variant = TigeraSecureEnterprise →
    cfg.controlPlaneReplicas = 2 → cfg.tlsKeyPairValid = true →
    renderAPIServer cfg = .ok apiServerObjectsEnterpriseDefault

/-- C3, counterexample: an Enterprise configuration with two replicas and a
valid TLS key pair but a ManagementCluster configured renders three extra
RBAC objects, so its object list is not the fixed default list. -/
theorem aps_render_default_claim_false : ¬ apsRenderDefaultClaim := fun h =>
  absurd (h apsCfgMCM rfl rfl rfl) (by decide)

/-- C3, amended: for every Enterprise configuration with two control-plane
replicas, a valid TLS key pair and no ManagementCluster configured,
`render.APIServer` returns without error and its objects are exactly the
fixed default Enterprise list. -/
theorem aps_render_default (cfg : APIServerConfiguration)
    (hv : cfg.variant = TigeraSecureEnterprise) (hr : cfg.controlPlaneReplicas = 2)
    (ht : cfg.tlsKeyPairValid = true) (hmc : cfg.managementCluster = none) :
    renderAPIServer cfg = .ok apiServerObjectsEnterpriseDefault := by
  unfold renderAPIServer
  simp [hv, ht, hmc]

/-- C3 witness: the theorem applied at the default Enterprise
configuration. -/
theorem aps_render_default_witness :
    renderAPIServer apsCfgEnterpriseDefault = .ok apiServerObjectsEnterpriseDefault :=
  aps_render_default apsCfgEnterpriseDefault rfl rfl rfl rfl

end Operator